import Mathlib

/-!
Verification development for the pdf.js gulp build-orchestration script
(`gulpfile.mjs`).  The definitions below are shallow embeddings of the
functions of that script: feature-flag sets ("defines") become association
lists of JS-like values, the webpack configuration builder becomes a pure
function of its inputs plus an explicit record of the external reads it
performs, and the file-system choreography (two-phase sandbox build,
minification pass, version stamping, preferences extraction) becomes
explicit state passing over a finite map from paths to file contents.

`builder.merge` (from `external/builder/builder.mjs`, not part of this
slice) is modelled from the spec: later overrides take precedence per key,
inputs are never mutated, the result is a new flag set.
-/

/-- JS-like values stored in a flag set ("defines") or in `version.json`.
`prefs raw` stands for a default-preferences object, carried opaquely as
the raw JSON text it was parsed from. -/
inductive JValue where
  | undefV : JValue
  | null : JValue
  | bool : Bool → JValue
  | str : String → JValue
  | num : Nat → JValue
  | prefs : String → JValue
deriving DecidableEq, Repr

/-- A flag set: a mapping from flag name to value, as an association list.
Key lookup takes the first binding. -/
abbrev Defines := List (String × JValue)

/-- JS property read: `d.k`, yielding `undefined` when the key is absent. -/
def jget (d : Defines) (k : String) : JValue :=
  match d.find? (fun kv => kv.1 = k) with
  | some kv => kv.2
  | none => .undefV

/-- JS truthiness of a `JValue` (used by `if (bundleDefines.CHROME)` etc.). -/
def truthy : JValue → Bool
  | .undefV => false
  | .null => false
  | .bool b => b
  | .str s => s ≠ ""
  | .num n => n ≠ 0
  | .prefs _ => true

/-- JS nullish coalescing `a ?? b`: `b` exactly when `a` is `null` or
`undefined`. -/
def nullish (a b : JValue) : JValue :=
  match a with
  | .undefV => b
  | .null => b
  | v => v

/-- Modelled from the spec: `builder.merge` from
`external/builder/builder.mjs` (not in this slice).  Combines a base flag
set with an override set; keys of the override take precedence, keys only
in the base retain their value, and neither input is mutated.  The
override bindings are placed first so that `jget` (first hit wins) gives
them precedence. -/
def builderMerge (base override : Defines) : Defines :=
  override ++ base

/-- The frozen base flag set `DEFINES` of the gulpfile. -/
def DEFINES : Defines :=
  [("SKIP_BABEL", .bool true),
   ("TESTING", .undefV),
   ("GENERIC", .bool false),
   ("MOZCENTRAL", .bool false),
   ("GECKOVIEW", .bool false),
   ("CHROME", .bool false),
   ("MINIFIED", .bool false),
   ("COMPONENTS", .bool false),
   ("LIB", .bool false),
   ("IMAGE_DECODERS", .bool false)]

/-- `output.library`: either a plain AMD name (`library: "..."`) or a typed
library descriptor (`library: { type: "..." }`). -/
inductive LibSpec where
  | name : String → LibSpec
  | typed : String → LibSpec
deriving DecidableEq, Repr

/-- The webpack output descriptor handed to `createWebpackConfig`.
`globalObject` starts out unset; `createWebpackConfig` mutates the
caller's object by assigning it. -/
structure Output where
  filename : String
  library : Option LibSpec := none
  libraryTarget : Option String := none
  umdNamedDefine : Option Bool := none
  globalObject : Option String := none
deriving DecidableEq, Repr

/-- The optional-argument record of `createWebpackConfig`. -/
structure WPOpts where
  disableVersionInfo : Bool := false
  disableSourceMaps : Bool := false
  disableLicenseHeader : Bool := false
  defaultPreferencesDir : Option String := none
deriving DecidableEq, Repr

/-- Contents of `build/version.json` as read by `getVersionJSON`. -/
structure VersionInfo where
  version : JValue
  commit : JValue
deriving DecidableEq, Repr

/-- The external reads `createWebpackConfig` performs: `getVersionJSON()`
(reads `build/version.json`), `process.env.TESTING`, and
`getDefaultPreferences(dir)` (reads the generated preferences JSON,
carried as raw text). -/
structure ExtReads where
  versionJSON : VersionInfo
  envTESTING : String
  prefsFor : String → String

/-- Node `path.join(dirname, v)` for the clean relative paths appearing in
the alias tables: joining with `""` returns `dirname` unchanged. -/
def pathJoin (dirname v : String) : String :=
  if v = "" then dirname else dirname ++ "/" ++ v

/-- `basicAlias` of `createWebpackConfig`. -/
def basicAlias : List (String × String) :=
  [("pdfjs", "src"),
   ("pdfjs-web", "web"),
   ("pdfjs-lib", "web/pdfjs")]

/-- `libraryAlias` of `createWebpackConfig` before target-specific
reassignment: every slot defaults to the stub module. -/
def libraryAlias0 : List (String × String) :=
  [("display-fetch_stream", "src/display/stubs.js"),
   ("display-l10n_utils", "src/display/stubs.js"),
   ("display-network", "src/display/stubs.js"),
   ("display-node_stream", "src/display/stubs.js"),
   ("display-node_utils", "src/display/stubs.js"),
   ("display-svg", "src/display/stubs.js")]

/-- `viewerAlias` of `createWebpackConfig` before target-specific
reassignment; `web-com` and `web-print_service` default to the empty
string. -/
def viewerAlias0 : List (String × String) :=
  [("web-annotation_editor_params", "web/annotation_editor_params.js"),
   ("web-com", ""),
   ("web-pdf_attachment_viewer", "web/pdf_attachment_viewer.js"),
   ("web-pdf_cursor_tools", "web/pdf_cursor_tools.js"),
   ("web-pdf_document_properties", "web/pdf_document_properties.js"),
   ("web-pdf_find_bar", "web/pdf_find_bar.js"),
   ("web-pdf_layer_viewer", "web/pdf_layer_viewer.js"),
   ("web-pdf_outline_viewer", "web/pdf_outline_viewer.js"),
   ("web-pdf_presentation_mode", "web/pdf_presentation_mode.js"),
   ("web-pdf_sidebar", "web/pdf_sidebar.js"),
   ("web-pdf_thumbnail_viewer", "web/pdf_thumbnail_viewer.js"),
   ("web-print_service", ""),
   ("web-secondary_toolbar", "web/secondary_toolbar.js"),
   ("web-toolbar", "web/toolbar.js")]

/-- JS assignment `m[k] = v` on an object that already has key `k`. -/
def aset (m : List (String × String)) (k v : String) : List (String × String) :=
  m.map (fun kv => if kv.1 = k then (kv.1, v) else kv)

/-- The alias table of `createWebpackConfig` before `path.join`, built from
the merged bundle defines: the spread `{...basicAlias, ...libraryAlias,
...viewerAlias}` after the target-conditional reassignments. -/
def aliasPre (bd : Defines) : List (String × String) :=
  let libraryAlias :=
    if truthy (jget bd "CHROME") then
      aset (aset libraryAlias0 "display-fetch_stream" "src/display/fetch_stream.js")
        "display-network" "src/display/network.js"
    else if truthy (jget bd "GENERIC") then
      aset (aset (aset (aset (aset (aset libraryAlias0
        "display-fetch_stream" "src/display/fetch_stream.js")
        "display-l10n_utils" "web/l10n_utils.js")
        "display-network" "src/display/network.js")
        "display-node_stream" "src/display/node_stream.js")
        "display-node_utils" "src/display/node_utils.js")
        "display-svg" "src/display/svg.js"
    else libraryAlias0
  let viewerAlias :=
    if truthy (jget bd "CHROME") then
      aset (aset viewerAlias0 "web-com" "web/chromecom.js")
        "web-print_service" "web/pdf_print_service.js"
    else if truthy (jget bd "GENERIC") then
      aset (aset viewerAlias0 "web-com" "web/genericcom.js")
        "web-print_service" "web/pdf_print_service.js"
    else if truthy (jget bd "MOZCENTRAL") then
      let va :=
        if truthy (jget bd "GECKOVIEW") then
          viewerAlias0.map (fun kv =>
            (kv.1, if kv.1 = "web-toolbar" then "web/toolbar-geckoview.js"
                   else "web/stubs-geckoview.js"))
        else viewerAlias0
      aset (aset va "web-com" "web/firefoxcom.js")
        "web-print_service" "web/firefox_print_service.js"
    else viewerAlias0
  basicAlias ++ libraryAlias ++ viewerAlias

/-- The final alias table: every value resolved with
`path.join(__dirname, ·)`. -/
def aliasTable (dirname : String) (bd : Defines) : List (String × String) :=
  (aliasPre bd).map (fun kv => (kv.1, pathJoin dirname kv.2))

/-- Lookup in an alias table. -/
def aLookup (m : List (String × String)) (k : String) : Option String :=
  match m.find? (fun kv => kv.1 = k) with
  | some kv => some kv.2
  | none => none

/-- The webpack configuration object assembled by `createWebpackConfig`,
restricted to the fields this development reasons about. -/
structure WPConfig where
  mode : String
  experimentsOutputModule : Bool
  output : Output
  bannerEnabled : Bool
  resolveAlias : List (String × String)
  devtool : Option String
  bundleDefines : Defines
deriving Repr

/-- Result of a call to `createWebpackConfig`, as explicit state passing:
the post-call values of the two caller-supplied objects together with the
returned configuration.  The source assigns
`output.globalObject = "globalThis"` and performs no assignment to
`defines`. -/
structure WPResult where
  definesAfter : Defines
  outputAfter : Output
  config : WPConfig

/-- The override set merged onto `defines` at the top of
`createWebpackConfig`. -/
def wpOverrides (ext : ExtReads) (defines : Defines) (opts : WPOpts) : Defines :=
  let versionInfo :=
    if opts.disableVersionInfo then
      ({ version := .num 0, commit := .num 0 } : VersionInfo)
    else ext.versionJSON
  [("BUNDLE_VERSION", versionInfo.version),
   ("BUNDLE_BUILD", versionInfo.commit),
   ("TESTING", nullish (jget defines "TESTING") (.bool (ext.envTESTING = "true"))),
   ("DEFAULT_PREFERENCES",
     match opts.defaultPreferencesDir with
     | some d => .prefs (ext.prefsFor d)
     | none => .prefs "{}")]

/-- Shallow embedding of `createWebpackConfig` (gulpfile.mjs lines
139-302).  `dirname` stands for `__dirname`. -/
def createWebpackConfig (dirname : String) (ext : ExtReads) (defines : Defines)
    (output : Output) (opts : WPOpts) : WPResult :=
  let bundleDefines := builderMerge defines (wpOverrides ext defines opts)
  let enableSourceMaps :=
    !truthy (jget bundleDefines "MOZCENTRAL") &&
    !truthy (jget bundleDefines "CHROME") &&
    !truthy (jget bundleDefines "LIB") &&
    !truthy (jget bundleDefines "TESTING") &&
    !opts.disableSourceMaps
  let experiments :=
    match output.library with
    | some (.typed t) => t = "module"
    | _ => false
  let output' := { output with globalObject := some "globalThis" }
  { definesAfter := defines
    outputAfter := output'
    config :=
      { mode := "none"
        experimentsOutputModule := experiments
        output := output'
        bannerEnabled := !opts.disableLicenseHeader
        resolveAlias := aliasTable dirname bundleDefines
        devtool := if enableSourceMaps then some "source-map" else none
        bundleDefines := bundleDefines } }

/-- The merged bundle defines computed by `buildDefaultPreferences`
(gulpfile.mjs lines 750-753). -/
def buildDefaultPreferencesDefines (defines : Defines) (envTESTING : String) :
    Defines :=
  builderMerge defines
    [("LIB", .bool true),
     ("TESTING", nullish (jget defines "TESTING") (.bool (envTESTING = "true")))]

/-- Collapse consecutive `/` characters: Node's `fs` treats `a//b` and
`a/b` as the same path, and `parseMinified` mixes `dir + "/x"` with
`dir + "x"` on a `dir` ending in a slash. -/
def collapseSlashes : List Char → List Char
  | [] => []
  | [c] => [c]
  | c₁ :: c₂ :: rest =>
    if c₁ = '/' ∧ c₂ = '/' then collapseSlashes (c₂ :: rest)
    else c₁ :: collapseSlashes (c₂ :: rest)

/-- Path normalisation applied by the file-system model. -/
def normPath (s : String) : String :=
  ⟨collapseSlashes s.data⟩

/-- The file system: a finite map from (normalised) paths to file
contents. -/
abbrev FS := List (String × String)

/-- Contents of the file at `p`, if present. -/
def fsRead (fs : FS) (p : String) : Option String :=
  match fs.find? (fun kv => kv.1 = normPath p) with
  | some kv => some kv.2
  | none => none

/-- `fs.writeFileSync`: create or overwrite. -/
def fsWrite (fs : FS) (p v : String) : FS :=
  if (fs.find? (fun kv => kv.1 = normPath p)).isSome then
    fs.map (fun kv => if kv.1 = normPath p then (kv.1, v) else kv)
  else fs ++ [(normPath p, v)]

/-- `fs.unlinkSync`, ignoring the missing-file error case (callers check
presence separately where it matters). -/
def fsUnlink (fs : FS) (p : String) : FS :=
  fs.filter (fun kv => kv.1 ≠ normPath p)

def BUILD_DIR : String := "build/"
def TMP_DIR : String := BUILD_DIR ++ "tmp/"
def DEFAULT_PREFERENCES_DIR : String := BUILD_DIR ++ "default_preferences/"

/-- `TMP_DIR + "pdf.scripting.js"`, the temporary scripting artifact. -/
def scriptingPath : String := TMP_DIR ++ "pdf.scripting.js"

/-- Steps of `createSandboxBundle`, in execution order, for the temporal
claims about the two-phase sandbox build. -/
inductive SandboxEvent where
  | readScripting : SandboxEvent
  | captureDefine : SandboxEvent
  | unlinkScripting : SandboxEvent
  | assembleConfig : SandboxEvent
deriving DecidableEq, Repr

inductive FsError where
  | enoent : FsError
deriving DecidableEq, Repr

/-- Results of a successful `createSandboxBundle` call: the file system
afterwards, the merged sandbox flag set, the assembled webpack
configuration and the event trace. -/
structure SandboxBuild where
  fs : FS
  sandboxDefines : Defines
  config : WPConfig
  trace : List SandboxEvent

/-- Phase one of the two-phase sandbox build
(`createTemporaryScriptingBundle`): the scripting bundle is compiled (its
text `content` is produced by the bundler, which is external to this
model) and written to `TMP_DIR`. -/
def createTemporaryScriptingBundle (fs : FS) (content : String) : FS :=
  fsWrite fs scriptingPath content

/-- Phase two (`createSandboxBundle`, gulpfile.mjs lines 447-475): read the
temporary scripting bundle (`fs.readFileSync` throws `ENOENT` when it is
absent), merge its text into the flag set as `PDF_SCRIPTING_JS_SOURCE`,
delete the temporary file, then assemble the sandbox webpack
configuration. -/
def createSandboxBundle (dirname : String) (ext : ExtReads) (fs : FS)
    (defines : Defines) (opts : WPOpts) : Except FsError SandboxBuild :=
  match fsRead fs scriptingPath with
  | none => .error .enoent
  | some content =>
    let sandboxDefines :=
      builderMerge defines [("PDF_SCRIPTING_JS_SOURCE", .str content)]
    let fs1 := fsUnlink fs scriptingPath
    let r := createWebpackConfig dirname ext sandboxDefines
      { filename := "pdf.sandbox.js"
        library := some (.name "pdfjs-dist/build/pdf.sandbox")
        libraryTarget := some "umd"
        umdNamedDefine := some true } opts
    .ok { fs := fs1
          sandboxDefines := sandboxDefines
          config := r.config
          trace := [.readScripting, .captureDefine, .unlinkScripting,
                    .assembleConfig] }

inductive MErr where
  | enoent : MErr
  | minifyFailed : MErr
deriving DecidableEq, Repr

/-- The external minifier (`terser`), which may fail.  `minifyOne` is a
call on a single source text, `minifyGroup` a call on a named group of
source texts (the `viewerFiles` object); both return the `code` field. -/
structure Minifier where
  minifyOne : String → Except Unit String
  minifyGroup : List (String × String) → Except Unit String

/-- File-system computations: state monad over `FS` that keeps the state
reached when an error is thrown. -/
abbrev FSM := EStateM MErr FS

def readF (p : String) : FSM String := fun fs =>
  match fsRead fs p with
  | some v => .ok v fs
  | none => .error .enoent fs

def writeF (p v : String) : FSM Unit := fun fs =>
  .ok () (fsWrite fs p v)

def unlinkF (p : String) : FSM Unit := fun fs =>
  match fsRead fs p with
  | some _ => .ok () (fsUnlink fs p)
  | none => .error .enoent fs

def renameF (src dst : String) : FSM Unit := fun fs =>
  match fsRead fs src with
  | some v => .ok () (fsWrite (fsUnlink fs src) dst v)
  | none => .error .enoent fs

def liftMin (e : Except Unit String) : FSM String := fun fs =>
  match e with
  | .ok v => .ok v fs
  | .error _ => .error .minifyFailed fs

/-- Shallow embedding of `parseMinified` (gulpfile.mjs lines 946-1015):
read the five pre-minified bundles, minify and write the five minified
outputs (the viewer group goes to the new file `web/pdf.viewer.js`), then
delete the pre-minified originals and rename the minified outputs over
the original names.  The `image_decoders` write uses `dir +
"image_decoders/..."` (no leading slash), as in the source. -/
def parseMinified (m : Minifier) (dir : String) : FSM Unit := do
  let pdfFile ← readF (dir ++ "/build/pdf.js")
  let pdfWorkerFile ← readF (dir ++ "/build/pdf.worker.js")
  let pdfSandboxFile ← readF (dir ++ "/build/pdf.sandbox.js")
  let pdfImageDecodersFile ← readF (dir ++ "/image_decoders/pdf.image_decoders.js")
  let viewerJs ← readF (dir ++ "/web/viewer.js")
  let viewerFiles := [("pdf.js", pdfFile), ("viewer.js", viewerJs)]
  let cViewer ← liftMin (m.minifyGroup viewerFiles)
  writeF (dir ++ "/web/pdf.viewer.js") cViewer
  let cPdf ← liftMin (m.minifyOne pdfFile)
  writeF (dir ++ "/build/pdf.min.js") cPdf
  let cWorker ← liftMin (m.minifyOne pdfWorkerFile)
  writeF (dir ++ "/build/pdf.worker.min.js") cWorker
  let cSandbox ← liftMin (m.minifyOne pdfSandboxFile)
  writeF (dir ++ "/build/pdf.sandbox.min.js") cSandbox
  let cImage ← liftMin (m.minifyOne pdfImageDecodersFile)
  writeF (dir ++ "image_decoders/pdf.image_decoders.min.js") cImage
  unlinkF (dir ++ "/web/viewer.js")
  unlinkF (dir ++ "/web/debugger.js")
  unlinkF (dir ++ "/build/pdf.js")
  unlinkF (dir ++ "/build/pdf.worker.js")
  unlinkF (dir ++ "/build/pdf.sandbox.js")
  renameF (dir ++ "/build/pdf.min.js") (dir ++ "/build/pdf.js")
  renameF (dir ++ "/build/pdf.worker.min.js") (dir ++ "/build/pdf.worker.js")
  renameF (dir ++ "/build/pdf.sandbox.min.js") (dir ++ "/build/pdf.sandbox.js")
  renameF (dir ++ "/image_decoders/pdf.image_decoders.min.js")
    (dir ++ "/image_decoders/pdf.image_decoders.js")

/-- The warning `createBuildNumber` logs when the commit-count query
fails. -/
def gitWarning : String :=
  "This is not a Git repository; using default build number."

/-- `stdout.match(/\n/g).length` counts newlines (and is a crash when the
match is `null`, see `createBuildNumber`). -/
def countNewlines (s : String) : Nat := s.data.count '\n'

/-- JS `String.prototype.replace` with a string pattern: removes only the
first occurrence. -/
def removeFirstChar (c : Char) : List Char → List Char
  | [] => []
  | x :: rest => if x = c then rest else x :: removeFirstChar c rest

/-- Modelled from the spec: the `version.json` artifact produced by
`JSON.stringify({version, build, commit}, null, 2)` (external library
call), rendered with two-space indentation. -/
def mkVersionJson (version : String) (build : Nat) (commit : String) : String :=
  "\x7b\n  \"version\": \"" ++ version ++ "\",\n  \"build\": " ++ toString build ++
    ",\n  \"commit\": \"" ++ commit ++ "\"\n\x7d"

/-- Outcome of `createBuildNumber`: the version descriptor, the warnings
logged, and the file system after the `version.json` write. -/
structure BuildNumberResult where
  build : Nat
  version : String
  commit : String
  warnings : List String
  fs : FS
deriving DecidableEq, Repr

/-- Shallow embedding of `createBuildNumber` (gulpfile.mjs lines 700-744).
`r1` is the outcome of `git log --format=oneline baseVersion..` and `r2`
the outcome of `git log --format="%h" -n 1`; `.error` means the command
failed.  A `.error ()` result of the whole function models the uncaught
`TypeError` thrown when a non-empty `stdout` contains no newline
(`stdout.match(/\n/g)` is `null`). -/
def createBuildNumber (versionPrefix : String) (r1 r2 : Except Unit String)
    (fs : FS) : Except Unit BuildNumberResult :=
  let bn : Except Unit (Nat × List String) :=
    match r1 with
    | .error _ => .ok (0, [gitWarning])
    | .ok stdout =>
      if stdout ≠ "" then
        if countNewlines stdout = 0 then .error ()
        else .ok (countNewlines stdout, [])
      else .ok (0, [])
  match bn with
  | .error e => .error e
  | .ok (buildNumber, ws) =>
    let version := versionPrefix ++ toString buildNumber
    let buildCommit :=
      match r2 with
      | .error _ => ""
      | .ok stdout2 => (⟨removeFirstChar '\n' stdout2.data⟩ : String)
    .ok { build := buildNumber
          version := version
          commit := buildCommit
          warnings := ws
          fs := fsWrite fs (BUILD_DIR ++ "version.json")
            (mkVersionJson version buildNumber buildCommit) }

/-- Shallow embedding of `parseDefaultPreferences` (gulpfile.mjs lines
773-791).  The dynamically imported `app_options.mjs` module is external
to this slice; its extracted preference set is the parameter `prefsKV`,
and `stringify` models `JSON.stringify`.  An empty preference set is a
thrown error. -/
def parseDefaultPreferences (prefsKV : List (String × JValue))
    (stringify : List (String × JValue) → String) (dir : String) (fs : FS) :
    Except Unit FS :=
  if prefsKV.length = 0 then .error ()
  else .ok (fsWrite fs
    (DEFAULT_PREFERENCES_DIR ++ dir ++ "default_preferences.json")
    (stringify prefsKV))

/-- Shallow embedding of `getDefaultPreferences` (gulpfile.mjs lines
793-798): `fs.readFileSync` throws when the file is absent, and
`JSON.parse` (modelled by the partial parser `parseJson`) throws on
invalid input. -/
def getDefaultPreferences (parseJson : String → Option (List (String × JValue)))
    (dir : String) (fs : FS) : Except Unit (List (String × JValue)) :=
  match fsRead fs (DEFAULT_PREFERENCES_DIR ++ dir ++ "default_preferences.json") with
  | none => .error ()
  | some str =>
    match parseJson str with
    | none => .error ()
    | some prefs => .ok prefs

/-- Fueled scanner for `gulp-replace` with a string pattern: JS
`String.split(pattern).join(replacement)` replaces every non-overlapping
occurrence, scanning left to right.  The fuel (instantiated with the text
length) only serves structural recursion; an empty pattern never
matches. -/
def replaceAllF (p r : List Char) : Nat → List Char → List Char
  | 0, s => s
  | _ + 1, [] => []
  | fuel + 1, c :: rest =>
    if p.isPrefixOf (c :: rest) ∧ p ≠ [] then
      r ++ replaceAllF p r fuel (rest.drop (p.length - 1))
    else c :: replaceAllF p r fuel rest

/-- `text.split(p).join(r)`: replace all occurrences of `p` by `r`. -/
def replaceAll (p r s : List Char) : List Char :=
  replaceAllF p r s.length s

def wpPat : List Char := "__webpack_require__".toList
def wpRep : List Char := "__w_pdfjs_require__".toList
def nwPat : List Char := "__non_webpack_import__".toList
def nwRep : List Char := "import".toList

/-- `replaceWebpackRequire()` (gulpfile.mjs lines 358-362): rename
`__webpack_require__` to `__w_pdfjs_require__` throughout the text. -/
def replaceWebpackRequire (s : List Char) : List Char :=
  replaceAll wpPat wpRep s

/-- `replaceNonWebpackImport()` (gulpfile.mjs lines 364-366): restore
`__non_webpack_import__` to `import` throughout the text. -/
def replaceNonWebpackImport (s : List Char) : List Char :=
  replaceAll nwPat nwRep s

/-- The pattern `'root["' + amdName + '"] = factory()'` of
`replaceJSRootName`. -/
def rootPat (amdName : List Char) : List Char :=
  "root[\"".toList ++ amdName ++ "\"] = factory()".toList

/-- The replacement `'root["' + amdName + '"] = root.' + jsName +
" = factory()"` of `replaceJSRootName`. -/
def rootRep (amdName jsName : List Char) : List Char :=
  "root[\"".toList ++ amdName ++ "\"] = root.".toList ++ jsName ++
    " = factory()".toList

/-- `replaceJSRootName(amdName, jsName)` (gulpfile.mjs lines 368-374):
additionally expose the bundle under the legacy `root.<jsName>` global. -/
def replaceJSRootName (amdName jsName s : List Char) : List Char :=
  replaceAll (rootPat amdName) (rootRep amdName jsName) s

/-- Does `p` occur as a contiguous substring of the text? -/
def containsB (p : List Char) : List Char → Bool
  | [] => p.isEmpty
  | s@(_ :: rest) => p.isPrefixOf s || containsB p rest

/-- Index naming the three substitution passes. -/
inductive PatId where
  | wp : PatId
  | nw : PatId
  | rt : PatId
deriving DecidableEq, Repr, Fintype

/-- Search pattern of each pass. -/
def patOf (amd : List Char) : PatId → List Char
  | .wp => wpPat
  | .nw => nwPat
  | .rt => rootPat amd

/-- Replacement text of each pass. -/
def repOf (amd js : List Char) : PatId → List Char
  | .wp => wpRep
  | .nw => nwRep
  | .rt => rootRep amd js

/-- One pass, by index: `applyP .wp` is `replaceWebpackRequire`,
`applyP .nw` is `replaceNonWebpackImport`, `applyP .rt` is
`replaceJSRootName amd js`. -/
def applyP (amd js : List Char) (i : PatId) (s : List Char) : List Char :=
  replaceAll (patOf amd i) (repOf amd js i) s

/-- Tokens of the three-pattern tokenisation of a text: a complete
occurrence of one of the three search patterns, or a plain character. -/
inductive Tok where
  | wp : Tok
  | nw : Tok
  | rt : Tok
  | ch : Char → Tok
deriving DecidableEq, Repr

/-- The token corresponding to each pattern. -/
def tokOf : PatId → Tok
  | .wp => .wp
  | .nw => .nw
  | .rt => .rt

/-- Characters spelled by one token. -/
def tokChars (amd : List Char) : Tok → List Char
  | .wp => wpPat
  | .nw => nwPat
  | .rt => rootPat amd
  | .ch c => [c]

/-- Concatenate a token list back into a text. -/
def render (amd : List Char) : List Tok → List Char
  | [] => []
  | t :: ts => tokChars amd t ++ render amd ts

/-- Greedy left-to-right tokenisation of a text by the three search
patterns (fueled like `replaceAllF`). -/
def parseF (amd : List Char) : Nat → List Char → List Tok
  | 0, _ => []
  | _ + 1, [] => []
  | fuel + 1, c :: rest =>
    if wpPat.isPrefixOf (c :: rest) then
      .wp :: parseF amd fuel (rest.drop (wpPat.length - 1))
    else if nwPat.isPrefixOf (c :: rest) then
      .nw :: parseF amd fuel (rest.drop (nwPat.length - 1))
    else if (rootPat amd).isPrefixOf (c :: rest) then
      .rt :: parseF amd fuel (rest.drop ((rootPat amd).length - 1))
    else .ch c :: parseF amd fuel rest

def parse (amd s : List Char) : List Tok :=
  parseF amd s.length s

/-- No search pattern matches at the head of `s`. -/
def noPatAt (amd s : List Char) : Bool :=
  !(wpPat.isPrefixOf s || nwPat.isPrefixOf s || (rootPat amd).isPrefixOf s)

/-- `s` tokenises without overlaps: whenever the tokeniser consumes a
pattern occurrence, no (same or different) pattern occurrence starts
strictly inside the consumed span. -/
def overlapFreeF (amd : List Char) : Nat → List Char → Bool
  | 0, _ => true
  | _ + 1, [] => true
  | fuel + 1, c :: rest =>
    if wpPat.isPrefixOf (c :: rest) then
      ((List.range (wpPat.length - 1)).all (fun k => noPatAt amd (rest.drop k))) &&
        overlapFreeF amd fuel (rest.drop (wpPat.length - 1))
    else if nwPat.isPrefixOf (c :: rest) then
      ((List.range (nwPat.length - 1)).all (fun k => noPatAt amd (rest.drop k))) &&
        overlapFreeF amd fuel (rest.drop (nwPat.length - 1))
    else if (rootPat amd).isPrefixOf (c :: rest) then
      ((List.range ((rootPat amd).length - 1)).all (fun k => noPatAt amd (rest.drop k))) &&
        overlapFreeF amd fuel (rest.drop ((rootPat amd).length - 1))
    else overlapFreeF amd fuel rest

def overlapFree (amd s : List Char) : Bool :=
  overlapFreeF amd s.length s

/-- Replace each occurrence of the token of pass `i` by the replacement
text of pass `i`, spelled as plain-character tokens. -/
def expTok (amd js : List Char) (i : PatId) (t : Tok) : List Tok :=
  if t = tokOf i then (repOf amd js i).map Tok.ch else [t]

def expandP (amd js : List Char) (i : PatId) : List Tok → List Tok
  | [] => []
  | t :: ts => expTok amd js i t ++ expandP amd js i ts

/-- The pattern occurrences of `s` are isolated with respect to the three
substitution passes: the text and each of its one- and two-pass images
tokenise without overlaps, each pass rewrites the tokenisation pointwise
(no occurrence is created or destroyed across a replacement boundary),
and a single pass leaves no occurrence of its own pattern behind. -/
def isolated (amd js s : List Char) : Prop :=
  overlapFree amd s = true ∧
  (∀ i : PatId, overlapFree amd (applyP amd js i s) = true) ∧
  (∀ i j : PatId, i ≠ j →
    overlapFree amd (applyP amd js j (applyP amd js i s)) = true) ∧
  (∀ i : PatId, parse amd (applyP amd js i s) = expandP amd js i (parse amd s)) ∧
  (∀ i j : PatId, i ≠ j →
    parse amd (applyP amd js j (applyP amd js i s)) =
      expandP amd js j (expandP amd js i (parse amd s))) ∧
  (∀ i : PatId, containsB (patOf amd i) (applyP amd js i s) = false)

/-- Concrete external-read environment used in counterexamples and
witnesses. -/
def ext0 : ExtReads :=
  { versionJSON := { version := .str "4.0.0", commit := .str "abc1234" }
    envTESTING := ""
    prefsFor := fun _ => "{}" }

/-- Concrete output descriptor used in counterexamples and witnesses. -/
def out0 : Output := { filename := "pdf.js" }

/-- Default optional arguments of `createWebpackConfig`. -/
def opts0 : WPOpts := {}

/-- The names of the selectable module slots: the library slots and the
viewer-UI slots. -/
def slotKeys : List String :=
  libraryAlias0.map Prod.fst ++ viewerAlias0.map Prod.fst

/-- A minified-target output directory before `parseMinified` runs: the
five bundle files it reads plus `web/debugger.js` (which it deletes),
with arbitrary contents.  `"build/minified/"` is `MINIFIED_DIR` of the
gulpfile. -/
def minFS (c1 c2 c3 c4 c5 c6 : String) : FS :=
  [("build/minified/build/pdf.js", c1),
   ("build/minified/build/pdf.worker.js", c2),
   ("build/minified/build/pdf.sandbox.js", c3),
   ("build/minified/image_decoders/pdf.image_decoders.js", c4),
   ("build/minified/web/viewer.js", c5),
   ("build/minified/web/debugger.js", c6)]

/-- The AMD name of the main bundle (`createMainBundle`). -/
def amdMain : List Char := "pdfjs-dist/build/pdf".toList

/-- The legacy global name of the main bundle (`createMainBundle`). -/
def jsMain : List Char := "pdfjsLib".toList

/-- A sample bundler output containing one isolated occurrence of each of
the three search patterns. -/
def bundleSample : List Char :=
  ("A __webpack_require__(5); B __non_webpack_import__ C " ++
    "root[\"pdfjs-dist/build/pdf\"] = factory() D").toList

/-! ## Theorems -/

theorem aLookup_isSome_of_mem_keys (m : List (String × String)) (k : String)
    (h : k ∈ m.map Prod.fst) : (aLookup m k).isSome := by
  induction m with
  | nil => simp at h
  | cons kv rest ih =>
    by_cases hk : kv.1 = k
    · simp [aLookup, List.find?, hk]
    · simp only [List.map_cons, List.mem_cons] at h
      rcases h with h | h
      · exact absurd h.symm hk
      · simpa [aLookup, List.find?, hk] using ih h

theorem aliasTable_keys (dirname : String) (bd : Defines) :
    (aliasTable dirname bd).map Prod.fst = (aliasPre bd).map Prod.fst := by
  simp [aliasTable, List.map_map]

theorem aliasPre_keys_const (bd : Defines) :
    (aliasPre bd).map Prod.fst =
      basicAlias.map Prod.fst ++ libraryAlias0.map Prod.fst ++
        viewerAlias0.map Prod.fst := by
  by_cases h1 : truthy (jget bd "CHROME") <;>
    by_cases h2 : truthy (jget bd "GENERIC") <;>
      by_cases h3 : truthy (jget bd "MOZCENTRAL") <;>
        by_cases h4 : truthy (jget bd "GECKOVIEW") <;>
          simp [aliasPre, h1, h2, h3, h4, aset, basicAlias, libraryAlias0,
            viewerAlias0]

theorem jget_bd_targets (ext : ExtReads) (defines : Defines) (opts : WPOpts) :
    jget (builderMerge defines (wpOverrides ext defines opts)) "CHROME" =
      jget defines "CHROME" ∧
    jget (builderMerge defines (wpOverrides ext defines opts)) "GENERIC" =
      jget defines "GENERIC" ∧
    jget (builderMerge defines (wpOverrides ext defines opts)) "MOZCENTRAL" =
      jget defines "MOZCENTRAL" ∧
    jget (builderMerge defines (wpOverrides ext defines opts)) "GECKOVIEW" =
      jget defines "GECKOVIEW" := by
  refine ⟨?_, ?_, ?_, ?_⟩ <;>
    simp [builderMerge, wpOverrides, jget, List.find?]

/-- C3: the claim as stated is false: for the base flag set (no recognized
target flag), the alias slot `web-com` resolves to the repository root
(`path.join(__dirname, "")`), not to an inert stub implementation, so the
"falling back to inert stub implementations for every slot" part fails at
this concrete input. -/
theorem C3_counterexample :
    ¬ (∀ k ∈ slotKeys,
        ((aLookup ((createWebpackConfig "/repo" ext0 DEFINES out0
              opts0).config.resolveAlias) k).any
          (fun p => p == pathJoin "/repo" "src/display/stubs.js" ||
                    p == pathJoin "/repo" "web/stubs-geckoview.js")) = true) := by
  intro h
  have := h "web-com" (by decide)
  revert this
  decide

/-- C3 (amended): the alias table built by `createWebpackConfig` maps every
abstract slot name to a resolved path for every flag set (totality); for
flag sets with no recognized target-identity flag (CHROME, GENERIC,
MOZCENTRAL all falsy), the six library slots fall back to the inert stub
module `src/display/stubs.js`, while the viewer slots `web-com` and
`web-print_service` fall back to the empty relative path and therefore
resolve to the repository root, not to a stub implementation. -/
theorem C3_alias_resolution (dirname : String) (ext : ExtReads)
    (defines : Defines) (output : Output) (opts : WPOpts)
    (hc : truthy (jget defines "CHROME") = false)
    (hg : truthy (jget defines "GENERIC") = false)
    (hm : truthy (jget defines "MOZCENTRAL") = false) :
    (∀ (d2 : Defines), ∀ k ∈ slotKeys,
      ∃ p, aLookup ((createWebpackConfig dirname ext d2 output
        opts).config.resolveAlias) k = some p) ∧
    (∀ k ∈ libraryAlias0.map Prod.fst,
      aLookup ((createWebpackConfig dirname ext defines output
        opts).config.resolveAlias) k =
          some (pathJoin dirname "src/display/stubs.js")) ∧
    aLookup ((createWebpackConfig dirname ext defines output
      opts).config.resolveAlias) "web-com" = some dirname ∧
    aLookup ((createWebpackConfig dirname ext defines output
      opts).config.resolveAlias) "web-print_service" = some dirname := by
  have hbd : ∀ d2 : Defines,
      (createWebpackConfig dirname ext d2 output opts).config.resolveAlias =
        aliasTable dirname (builderMerge d2 (wpOverrides ext d2 opts)) := by
    intro d2; rfl
  obtain ⟨hC, hG, hM, _⟩ := jget_bd_targets ext defines opts
  have hpre : aliasPre (builderMerge defines (wpOverrides ext defines opts)) =
      basicAlias ++ libraryAlias0 ++ viewerAlias0 := by
    rw [aliasPre]
    simp [hC, hG, hM, hc, hg, hm]
  refine ⟨?_, ?_, ?_, ?_⟩
  · intro d2 k hk
    have hmem : k ∈ ((createWebpackConfig dirname ext d2 output
        opts).config.resolveAlias).map Prod.fst := by
      rw [hbd, aliasTable_keys, aliasPre_keys_const]
      simp only [slotKeys, List.mem_append] at hk ⊢
      tauto
    exact Option.isSome_iff_exists.mp
      (aLookup_isSome_of_mem_keys _ _ hmem)
  · intro k hk
    rw [hbd, aliasTable, hpre]
    fin_cases hk <;> simp [aLookup, List.find?, basicAlias, libraryAlias0,
      viewerAlias0, pathJoin]
  · rw [hbd, aliasTable, hpre]
    simp [aLookup, List.find?, basicAlias, libraryAlias0, viewerAlias0,
      pathJoin]
  · rw [hbd, aliasTable, hpre]
    simp [aLookup, List.find?, basicAlias, libraryAlias0, viewerAlias0,
      pathJoin]

theorem C3_alias_resolution_witness :
    truthy (jget DEFINES "CHROME") = false ∧
    truthy (jget DEFINES "GENERIC") = false ∧
    truthy (jget DEFINES "MOZCENTRAL") = false ∧
    ((∀ (d2 : Defines), ∀ k ∈ slotKeys,
        ∃ p, aLookup ((createWebpackConfig "/repo" ext0 d2 out0
          opts0).config.resolveAlias) k = some p) ∧
      (∀ k ∈ libraryAlias0.map Prod.fst,
        aLookup ((createWebpackConfig "/repo" ext0 DEFINES out0
          opts0).config.resolveAlias) k =
            some (pathJoin "/repo" "src/display/stubs.js")) ∧
      aLookup ((createWebpackConfig "/repo" ext0 DEFINES out0
        opts0).config.resolveAlias) "web-com" = some "/repo" ∧
      aLookup ((createWebpackConfig "/repo" ext0 DEFINES out0
        opts0).config.resolveAlias) "web-print_service" = some "/repo") :=
  ⟨by decide, by decide, by decide,
   C3_alias_resolution "/repo" ext0 DEFINES out0 opts0 (by decide) (by decide)
     (by decide)⟩

theorem pathJoin_inj (d : String) {a b : String} (ha : a ≠ "") (hb : b ≠ "")
    (h : pathJoin d a = pathJoin d b) : a = b := by
  rw [pathJoin, pathJoin, if_neg ha, if_neg hb] at h
  rw [String.ext_iff, String.data_append, String.data_append,
    String.data_append, String.data_append] at h
  rw [List.append_assoc, List.append_assoc] at h
  have h2 := List.append_cancel_left (List.append_cancel_left h)
  exact String.ext h2

theorem pathJoin_ne_dirname (d : String) {a : String} (ha : a ≠ "") :
    pathJoin d a ≠ d := by
  rw [pathJoin, if_neg ha]
  intro h
  have := congrArg String.length h
  rw [String.length_append, String.length_append] at this
  have hlen : 0 < a.length := by
    cases a with
    | mk l =>
      cases l with
      | nil => exact absurd rfl ha
      | cons c cs => simp [String.length]
  omega

/-- C4: with the base flag set merged with `{GENERIC: true, TESTING:
true}`, the alias builder selects the fetch-based network modules
(`src/display/fetch_stream.js`, `src/display/network.js`), the
web-localization module (`web/l10n_utils.js`), the generic platform
integration (`web/genericcom.js`) and print service
(`web/pdf_print_service.js`); and none of these selected paths is an
extension-specific or stub-fallback implementation (nor the empty
fallback resolving to the repository root). -/
theorem C4_generic_testing_aliases (dirname : String) (ext : ExtReads)
    (output : Output) (opts : WPOpts) :
    (aLookup ((createWebpackConfig dirname ext
        (builderMerge DEFINES [("GENERIC", .bool true), ("TESTING", .bool true)])
        output opts).config.resolveAlias) "display-fetch_stream" =
      some (pathJoin dirname "src/display/fetch_stream.js") ∧
     aLookup ((createWebpackConfig dirname ext
        (builderMerge DEFINES [("GENERIC", .bool true), ("TESTING", .bool true)])
        output opts).config.resolveAlias) "display-network" =
      some (pathJoin dirname "src/display/network.js") ∧
     aLookup ((createWebpackConfig dirname ext
        (builderMerge DEFINES [("GENERIC", .bool true), ("TESTING", .bool true)])
        output opts).config.resolveAlias) "display-l10n_utils" =
      some (pathJoin dirname "web/l10n_utils.js") ∧
     aLookup ((createWebpackConfig dirname ext
        (builderMerge DEFINES [("GENERIC", .bool true), ("TESTING", .bool true)])
        output opts).config.resolveAlias) "web-com" =
      some (pathJoin dirname "web/genericcom.js") ∧
     aLookup ((createWebpackConfig dirname ext
        (builderMerge DEFINES [("GENERIC", .bool true), ("TESTING", .bool true)])
        output opts).config.resolveAlias) "web-print_service" =
      some (pathJoin dirname "web/pdf_print_service.js")) ∧
    (∀ sel ∈ ["src/display/fetch_stream.js", "src/display/network.js",
              "web/l10n_utils.js", "web/genericcom.js",
              "web/pdf_print_service.js"],
      (∀ bad ∈ ["src/display/stubs.js", "web/stubs-geckoview.js",
                "web/chromecom.js", "web/firefoxcom.js",
                "web/firefox_print_service.js", "web/toolbar-geckoview.js"],
        pathJoin dirname sel ≠ pathJoin dirname bad) ∧
      pathJoin dirname sel ≠ dirname) := by
  constructor
  · refine ⟨?_, ?_, ?_, ?_, ?_⟩ <;>
      simp [createWebpackConfig, aliasTable, aliasPre, builderMerge,
        wpOverrides, jget, List.find?, truthy, aset, basicAlias,
        libraryAlias0, viewerAlias0, aLookup, DEFINES]
  · intro sel hsel
    refine ⟨?_, ?_⟩
    · intro bad hbad
      fin_cases hsel <;> fin_cases hbad <;>
        exact fun h =>
          absurd (pathJoin_inj dirname (by decide) (by decide) h) (by decide)
    · fin_cases hsel <;> exact pathJoin_ne_dirname dirname (by decide)

theorem C4_generic_testing_aliases_witness :
    aLookup ((createWebpackConfig "/repo" ext0
        (builderMerge DEFINES [("GENERIC", .bool true), ("TESTING", .bool true)])
        out0 opts0).config.resolveAlias) "display-fetch_stream" =
      some (pathJoin "/repo" "src/display/fetch_stream.js") ∧
    pathJoin "/repo" "src/display/fetch_stream.js" ≠
      pathJoin "/repo" "src/display/stubs.js" :=
  ⟨(C4_generic_testing_aliases "/repo" ext0 out0 opts0).1.1,
   ((C4_generic_testing_aliases "/repo" ext0 out0 opts0).2
      "src/display/fetch_stream.js" (by decide)).1
      "src/display/stubs.js" (by decide)⟩

/-- C9: `createWebpackConfig` mutates the caller-supplied output
descriptor by setting `globalObject` to `"globalThis"` (and the assembled
configuration carries that mutated descriptor), while the caller-supplied
`defines` argument is left unchanged; the merged bundle defines are a new
flag set produced by `builder.merge` of the input with the override
set. -/
theorem C9_output_mutated_defines_unchanged (dirname : String)
    (ext : ExtReads) (defines : Defines) (output : Output) (opts : WPOpts) :
    (createWebpackConfig dirname ext defines output opts).outputAfter =
      { output with globalObject := some "globalThis" } ∧
    (createWebpackConfig dirname ext defines output opts).config.output =
      (createWebpackConfig dirname ext defines output opts).outputAfter ∧
    (createWebpackConfig dirname ext defines output opts).definesAfter =
      defines ∧
    (createWebpackConfig dirname ext defines output opts).config.bundleDefines =
      builderMerge defines (wpOverrides ext defines opts) := by
  refine ⟨rfl, rfl, rfl, rfl⟩

/-- C10: in the merged bundle defines of `createWebpackConfig` and in the
merge performed by `buildDefaultPreferences`, the `TESTING` value is the
input flag set's `TESTING` whenever that is neither `null` nor
`undefined`, and otherwise the comparison of the `TESTING` environment
variable with `"true"`; in particular an explicit `TESTING: false` is
never overridden by the environment. -/
theorem C10_testing_resolution (dirname : String) (ext : ExtReads)
    (defines : Defines) (output : Output) (opts : WPOpts) :
    (jget ((createWebpackConfig dirname ext defines output
        opts).config.bundleDefines) "TESTING" =
      (if jget defines "TESTING" = .undefV ∨ jget defines "TESTING" = .null
       then .bool (ext.envTESTING = "true")
       else jget defines "TESTING")) ∧
    (jget (buildDefaultPreferencesDefines defines ext.envTESTING) "TESTING" =
      (if jget defines "TESTING" = .undefV ∨ jget defines "TESTING" = .null
       then .bool (ext.envTESTING = "true")
       else jget defines "TESTING")) ∧
    (jget defines "TESTING" = .bool false →
      jget ((createWebpackConfig dirname ext defines output
          opts).config.bundleDefines) "TESTING" = .bool false ∧
      jget (buildDefaultPreferencesDefines defines ext.envTESTING) "TESTING" =
        .bool false) := by
  have h1 : jget ((createWebpackConfig dirname ext defines output
      opts).config.bundleDefines) "TESTING" =
      nullish (jget defines "TESTING") (.bool (ext.envTESTING = "true")) := by
    simp [createWebpackConfig, builderMerge, wpOverrides, jget, List.find?]
  have h2 : jget (buildDefaultPreferencesDefines defines ext.envTESTING)
      "TESTING" =
      nullish (jget defines "TESTING") (.bool (ext.envTESTING = "true")) := by
    simp [buildDefaultPreferencesDefines, builderMerge, jget, List.find?]
  refine ⟨?_, ?_, ?_⟩
  · rw [h1]; cases hv : jget defines "TESTING" <;> simp [nullish]
  · rw [h2]; cases hv : jget defines "TESTING" <;> simp [nullish]
  · intro hfalse
    rw [h1, h2, hfalse]
    exact ⟨rfl, rfl⟩

theorem C10_testing_resolution_witness :
    jget [("TESTING", JValue.bool false)] "TESTING" = .bool false ∧
    (jget ((createWebpackConfig "/repo" ext0 [("TESTING", JValue.bool false)]
        out0 opts0).config.bundleDefines) "TESTING" = .bool false ∧
     jget (buildDefaultPreferencesDefines [("TESTING", JValue.bool false)]
        ext0.envTESTING) "TESTING" = .bool false) :=
  ⟨by decide,
   (C10_testing_resolution "/repo" ext0 [("TESTING", JValue.bool false)]
      out0 opts0).2.2 (by decide)⟩

theorem fsRead_def (fs : FS) (p : String) :
    fsRead fs p = (fs.find? (fun kv => kv.1 = normPath p)).map Prod.snd := by
  unfold fsRead
  cases fs.find? (fun kv => kv.1 = normPath p) <;> rfl

theorem find?_update (fs : FS) (key v : String) :
    (fs.map (fun kv => if kv.1 = key then (kv.1, v) else kv)).find?
        (fun kv => kv.1 = key) =
      (fs.find? (fun kv => kv.1 = key)).map (fun kv => (kv.1, v)) := by
  induction fs with
  | nil => rfl
  | cons kv rest ih =>
    by_cases hk : kv.1 = key
    · simp [List.find?, hk]
    · simp [List.find?, hk, ih]

theorem find?_update_ne (fs : FS) (key key2 v : String) (h : key2 ≠ key) :
    (fs.map (fun kv => if kv.1 = key then (kv.1, v) else kv)).find?
        (fun kv => kv.1 = key2) =
      fs.find? (fun kv => kv.1 = key2) := by
  induction fs with
  | nil => rfl
  | cons kv rest ih =>
    simp only [List.map_cons]
    by_cases hk : kv.1 = key
    · have hne : ¬ kv.1 = key2 := fun hc => h ((hk.symm.trans hc).symm)
      rw [if_pos hk]
      rw [List.find?_cons_of_neg _ (by simpa using hne),
        List.find?_cons_of_neg _ (by simpa using hne), ih]
    · rw [if_neg hk]
      by_cases hk2 : kv.1 = key2
      · rw [List.find?_cons_of_pos _ (by simpa using hk2),
          List.find?_cons_of_pos _ (by simpa using hk2)]
      · rw [List.find?_cons_of_neg _ (by simpa using hk2),
          List.find?_cons_of_neg _ (by simpa using hk2), ih]

theorem fsRead_fsWrite_self (fs : FS) (p v : String) :
    fsRead (fsWrite fs p v) p = some v := by
  rw [fsWrite]
  by_cases h : (fs.find? (fun kv => kv.1 = normPath p)).isSome
  · rw [if_pos h, fsRead_def, find?_update]
    obtain ⟨kv, hkv⟩ := Option.isSome_iff_exists.mp h
    rw [hkv]
    rfl
  · rw [if_neg h, fsRead_def, List.find?_append]
    have hnone : fs.find? (fun kv => kv.1 = normPath p) = none := by
      cases hc : fs.find? (fun kv => kv.1 = normPath p)
      · rfl
      · rw [hc] at h; simp at h
    rw [hnone]
    simp [List.find?]

theorem fsRead_fsWrite_ne (fs : FS) {p q : String} (v : String)
    (h : normPath q ≠ normPath p) :
    fsRead (fsWrite fs p v) q = fsRead fs q := by
  rw [fsWrite]
  by_cases hs : (fs.find? (fun kv => kv.1 = normPath p)).isSome
  · rw [if_pos hs, fsRead_def, fsRead_def, find?_update_ne fs _ _ _ h]
  · rw [if_neg hs, fsRead_def, fsRead_def, List.find?_append]
    have hsing : ([(normPath p, v)].find? (fun kv => kv.1 = normPath q)) =
        none := by
      simp [List.find?, Ne.symm h]
    rw [hsing]
    cases fs.find? (fun kv => kv.1 = normPath q) <;> rfl

theorem fsRead_fsUnlink_self (fs : FS) (p : String) :
    fsRead (fsUnlink fs p) p = none := by
  rw [fsUnlink, fsRead_def]
  have hnone : (fs.filter (fun kv => kv.1 ≠ normPath p)).find?
      (fun kv => kv.1 = normPath p) = none := by
    rw [List.find?_eq_none]
    intro x hx
    have hmem := List.of_mem_filter hx
    simp at hmem ⊢
    exact hmem
  rw [hnone]
  rfl

theorem fsRead_fsUnlink_ne (fs : FS) {p q : String}
    (h : normPath q ≠ normPath p) :
    fsRead (fsUnlink fs p) q = fsRead fs q := by
  rw [fsUnlink, fsRead_def, fsRead_def]
  congr 1
  induction fs with
  | nil => rfl
  | cons kv rest ih =>
    by_cases hk : kv.1 = normPath p
    · have hne : ¬ kv.1 = normPath q := fun hc => h ((hk.symm.trans hc).symm)
      rw [List.filter_cons_of_neg (by simpa using hk),
        List.find?_cons_of_neg _ (by simpa using hne), ih]
    · rw [List.filter_cons_of_pos (by simpa using hk)]
      by_cases hq : kv.1 = normPath q
      · rw [List.find?_cons_of_pos _ (by simpa using hq),
          List.find?_cons_of_pos _ (by simpa using hq)]
      · rw [List.find?_cons_of_neg _ (by simpa using hq),
          List.find?_cons_of_neg _ (by simpa using hq), ih]

/-- C1: in the two-phase sandbox build, the temporary scripting file
written by `createTemporaryScriptingBundle` exists on disk at the moment
`createSandboxBundle` reads it; on success the read content (never an
empty fallback) is the `PDF_SCRIPTING_JS_SOURCE` define, the temporary
file is deleted exactly once, strictly after the content has been
captured into the sandbox flag set and strictly before the sandbox
webpack configuration is assembled, and it no longer exists afterwards;
if the file is absent at the read step, `createSandboxBundle` aborts with
a missing-file error. -/
theorem C1_two_phase_sandbox (dirname : String) (ext : ExtReads) (fs : FS)
    (defines : Defines) (opts : WPOpts) (content : String) :
    (fsRead (createTemporaryScriptingBundle fs content) scriptingPath =
      some content) ∧
    (∃ r, createSandboxBundle dirname ext
        (createTemporaryScriptingBundle fs content) defines opts = .ok r ∧
      jget r.sandboxDefines "PDF_SCRIPTING_JS_SOURCE" = .str content ∧
      fsRead r.fs scriptingPath = none ∧
      r.trace = [.readScripting, .captureDefine, .unlinkScripting,
        .assembleConfig] ∧
      r.trace.count .unlinkScripting = 1 ∧
      r.trace.indexOf SandboxEvent.captureDefine <
        r.trace.indexOf SandboxEvent.unlinkScripting ∧
      r.trace.indexOf SandboxEvent.unlinkScripting <
        r.trace.indexOf SandboxEvent.assembleConfig) ∧
    (∀ fs2 : FS, fsRead fs2 scriptingPath = none →
      createSandboxBundle dirname ext fs2 defines opts = .error .enoent) := by
  have hread : fsRead (createTemporaryScriptingBundle fs content)
      scriptingPath = some content :=
    fsRead_fsWrite_self fs scriptingPath content
  refine ⟨hread, ?_, ?_⟩
  · have hstep : createSandboxBundle dirname ext
        (createTemporaryScriptingBundle fs content) defines opts =
        .ok { fs := fsUnlink (createTemporaryScriptingBundle fs content)
                scriptingPath
              sandboxDefines := builderMerge defines
                [("PDF_SCRIPTING_JS_SOURCE", JValue.str content)]
              config := (createWebpackConfig dirname ext
                (builderMerge defines
                  [("PDF_SCRIPTING_JS_SOURCE", JValue.str content)])
                { filename := "pdf.sandbox.js"
                  library := some (.name "pdfjs-dist/build/pdf.sandbox")
                  libraryTarget := some "umd"
                  umdNamedDefine := some true } opts).config
              trace := [.readScripting, .captureDefine, .unlinkScripting,
                .assembleConfig] } := by
      unfold createSandboxBundle
      rw [hread]
    refine ⟨_, hstep, ?_, ?_, rfl, ?_, ?_, ?_⟩
    · simp [builderMerge, jget, List.find?]
    · exact fsRead_fsUnlink_self _ scriptingPath
    · show List.count SandboxEvent.unlinkScripting
        [SandboxEvent.readScripting, SandboxEvent.captureDefine,
         SandboxEvent.unlinkScripting, SandboxEvent.assembleConfig] = 1
      decide
    · show List.indexOf SandboxEvent.captureDefine
          [SandboxEvent.readScripting, SandboxEvent.captureDefine,
           SandboxEvent.unlinkScripting, SandboxEvent.assembleConfig] <
        List.indexOf SandboxEvent.unlinkScripting
          [SandboxEvent.readScripting, SandboxEvent.captureDefine,
           SandboxEvent.unlinkScripting, SandboxEvent.assembleConfig]
      decide
    · show List.indexOf SandboxEvent.unlinkScripting
          [SandboxEvent.readScripting, SandboxEvent.captureDefine,
           SandboxEvent.unlinkScripting, SandboxEvent.assembleConfig] <
        List.indexOf SandboxEvent.assembleConfig
          [SandboxEvent.readScripting, SandboxEvent.captureDefine,
           SandboxEvent.unlinkScripting, SandboxEvent.assembleConfig]
      decide
  · intro fs2 h2
    unfold createSandboxBundle
    rw [h2]

theorem C1_two_phase_sandbox_witness :
    fsRead ([] : FS) scriptingPath = none ∧
    createSandboxBundle "/repo" ext0 ([] : FS) DEFINES opts0 =
      .error .enoent ∧
    fsRead (createTemporaryScriptingBundle [] "CODE") scriptingPath =
      some "CODE" :=
  ⟨by decide,
   (C1_two_phase_sandbox "/repo" ext0 [] DEFINES opts0 "CODE").2.2 []
     (by decide),
   (C1_two_phase_sandbox "/repo" ext0 [] DEFINES opts0 "CODE").1⟩

/-- C8: `parseDefaultPreferences` throws when the loaded preferences
module yields zero preference keys, and `getDefaultPreferences` throws
when the `default_preferences.json` file is absent (and both error paths
abort with a thrown error rather than proceeding with empty
preferences). -/
theorem C8_preferences_errors
    (stringify : List (String × JValue) → String)
    (parseJson : String → Option (List (String × JValue)))
    (dir : String) (fs : FS) :
    (∀ prefsKV : List (String × JValue), prefsKV.length = 0 →
      parseDefaultPreferences prefsKV stringify dir fs = .error ()) ∧
    (fsRead fs (DEFAULT_PREFERENCES_DIR ++ dir ++ "default_preferences.json") =
        none →
      getDefaultPreferences parseJson dir fs = .error ()) := by
  constructor
  · intro prefsKV h
    unfold parseDefaultPreferences
    rw [if_pos h]
  · intro h
    unfold getDefaultPreferences
    rw [h]

theorem C8_preferences_errors_witness :
    ([] : List (String × JValue)).length = 0 ∧
    fsRead ([] : FS)
      (DEFAULT_PREFERENCES_DIR ++ "generic/" ++ "default_preferences.json") =
        none ∧
    parseDefaultPreferences [] (fun _ => "{}") "generic/" [] = .error () ∧
    getDefaultPreferences (fun _ => none) "generic/" [] = .error () :=
  ⟨rfl, by decide,
   (C8_preferences_errors (fun _ => "{}") (fun _ => none) "generic/" []).1 []
     rfl,
   (C8_preferences_errors (fun _ => "{}") (fun _ => none) "generic/" []).2
     (by decide)⟩

/-- C7: the claim as stated is false: when the commit-count query
succeeds (here `"a\n"`, i.e. one commit since the base version) but the
short-hash query fails, `createBuildNumber` keeps build number 1 with
version `"2.0.1"` — not the default descriptor with build number 0 and
version `"2.0.0"` — and logs no warning at all. -/
theorem C7_counterexample :
    ¬ (∀ r1 r2 : Except Unit String, (r1 = .error () ∨ r2 = .error ()) →
        ∃ res, createBuildNumber "2.0." r1 r2 [] = .ok res ∧
          res.build = 0 ∧ res.commit = "" ∧ res.version = "2.0.0" ∧
          res.warnings ≠ []) := by
  intro h
  obtain ⟨res, heq, hb, _, _, hw⟩ :=
    h (.ok "a\n") (.error ()) (Or.inr rfl)
  have hR : createBuildNumber "2.0." (.ok "a\n") (.error ()) [] =
      .ok { build := 1, version := "2.0.1", commit := "", warnings := [],
            fs := [("build/version.json", mkVersionJson "2.0.1" 1 "")] } := by
    rfl
  rw [hR] at heq
  injection heq with h2
  subst h2
  exact absurd hb (by decide)

/-- C7 (amended): failure of the commit-count query is tolerated: the task
does not abort, the build number degrades to 0 (version = prefix + 0)
with the "not a Git repository" warning logged, and `version.json` is
still written; failure of the short-hash query is also tolerated and
degrades the commit hash to the empty string, but silently — no warning
is logged — and the build number computed from a successful commit-count
query is kept. -/
theorem C7_build_number_tolerance (versionPrefix : String) (fs : FS)
    (r2 : Except Unit String) :
    (∃ res, createBuildNumber versionPrefix (.error ()) r2 fs = .ok res ∧
      res.build = 0 ∧ res.version = versionPrefix ++ "0" ∧
      res.warnings = [gitWarning] ∧
      res.commit = (match r2 with
        | .error _ => ""
        | .ok s => (⟨removeFirstChar '\n' s.data⟩ : String)) ∧
      fsRead res.fs (BUILD_DIR ++ "version.json") =
        some (mkVersionJson (versionPrefix ++ "0") 0 res.commit)) ∧
    (∀ s : String, (s = "" ∨ 1 ≤ countNewlines s) →
      ∃ res, createBuildNumber versionPrefix (.ok s) (.error ()) fs =
          .ok res ∧
        res.commit = "" ∧ res.warnings = [] ∧
        fsRead res.fs (BUILD_DIR ++ "version.json") =
          some (mkVersionJson res.version res.build "")) := by
  constructor
  · refine ⟨_, rfl, rfl, rfl, rfl, rfl, ?_⟩
    exact fsRead_fsWrite_self fs _ _
  · intro s hs
    by_cases hse : s = ""
    · subst hse
      refine ⟨_, rfl, rfl, rfl, ?_⟩
      exact fsRead_fsWrite_self fs _ _
    · have hcount : ¬ countNewlines s = 0 := by
        rcases hs with hs | hs
        · exact absurd hs hse
        · omega
      have hstep : createBuildNumber versionPrefix (.ok s) (.error ()) fs =
          .ok { build := countNewlines s
                version := versionPrefix ++ toString (countNewlines s)
                commit := ""
                warnings := []
                fs := fsWrite fs (BUILD_DIR ++ "version.json")
                  (mkVersionJson (versionPrefix ++ toString (countNewlines s))
                    (countNewlines s) "") } := by
        unfold createBuildNumber
        simp [hse, hcount]
      exact ⟨_, hstep, rfl, rfl, fsRead_fsWrite_self fs _ _⟩

theorem C7_build_number_tolerance_witness :
    (("x\n" : String) = "" ∨ 1 ≤ countNewlines "x\n") ∧
    (∃ res, createBuildNumber "2.0." (.ok "x\n") (.error ()) [] = .ok res ∧
      res.commit = "" ∧ res.warnings = [] ∧
      fsRead res.fs (BUILD_DIR ++ "version.json") =
        some (mkVersionJson res.version res.build "")) :=
  ⟨Or.inr (by decide),
   (C7_build_number_tolerance "2.0." [] (.error ())).2 "x\n"
     (Or.inr (by decide))⟩

theorem fsm_bind_ok {α β : Type} {x : FSM α} {f : α → FSM β} {s s' : FS}
    {a : α} (hx : x s = .ok a s') : (x >>= f) s = f a s' := by
  show EStateM.bind x f s = f a s'
  unfold EStateM.bind
  rw [hx]

theorem fsm_bind_error {α β : Type} {x : FSM α} {f : α → FSM β} {s s' : FS}
    {e : MErr} (hx : x s = .error e s') : (x >>= f) s = .error e s' := by
  show EStateM.bind x f s = .error e s'
  unfold EStateM.bind
  rw [hx]

/-- C5: the claim as stated is false: even with a minifier that returns
every single-file input unchanged, `parseMinified` does not leave the
target directory byte-identical — at this concrete input the original
`web/viewer.js` is deleted (and a new combined `web/pdf.viewer.js` is
created), so the directory contents differ after the run. -/
theorem C5_counterexample :
    ¬ (∀ p : String,
        (match parseMinified
            ⟨fun s => .ok s, fun files => .ok (String.join (files.map Prod.snd))⟩
            "build/minified/" (minFS "A" "B" "C" "D" "E" "F") with
         | .ok _ fs2 => fsRead fs2 p
         | .error _ fs2 => fsRead fs2 p) =
          fsRead (minFS "A" "B" "C" "D" "E" "F") p) := by
  intro h
  have hv := h "build/minified/web/viewer.js"
  revert hv
  decide

/-- C5 (amended): with a minifier whose single-file minification is the
identity, `parseMinified` leaves the four renamed bundle files
(`build/pdf.js`, `build/pdf.worker.js`, `build/pdf.sandbox.js`,
`image_decoders/pdf.image_decoders.js`) byte-identical, but it deletes
`web/viewer.js` and `web/debugger.js` and creates the new combined file
`web/pdf.viewer.js`, so the directory as a whole is not byte-identical to
its pre-run contents. -/
theorem C5_minified_roundtrip (c1 c2 c3 c4 c5 c6 : String)
    (g : List (String × String) → String) :
    parseMinified ⟨fun s => .ok s, fun files => .ok (g files)⟩
        "build/minified/" (minFS c1 c2 c3 c4 c5 c6) =
      .ok () [("build/minified/image_decoders/pdf.image_decoders.js", c4),
              ("build/minified/web/pdf.viewer.js",
                g [("pdf.js", c1), ("viewer.js", c5)]),
              ("build/minified/build/pdf.js", c1),
              ("build/minified/build/pdf.worker.js", c2),
              ("build/minified/build/pdf.sandbox.js", c3)] ∧
    fsRead [("build/minified/image_decoders/pdf.image_decoders.js", c4),
            ("build/minified/web/pdf.viewer.js",
              g [("pdf.js", c1), ("viewer.js", c5)]),
            ("build/minified/build/pdf.js", c1),
            ("build/minified/build/pdf.worker.js", c2),
            ("build/minified/build/pdf.sandbox.js", c3)]
        "build/minified/web/viewer.js" = none ∧
    fsRead [("build/minified/image_decoders/pdf.image_decoders.js", c4),
            ("build/minified/web/pdf.viewer.js",
              g [("pdf.js", c1), ("viewer.js", c5)]),
            ("build/minified/build/pdf.js", c1),
            ("build/minified/build/pdf.worker.js", c2),
            ("build/minified/build/pdf.sandbox.js", c3)]
        "build/minified/web/debugger.js" = none := by
  refine ⟨?_, rfl, rfl⟩
  unfold parseMinified
  rw [fsm_bind_ok (show readF ("build/minified/" ++ "/build/pdf.js") (minFS c1 c2 c3 c4 c5 c6) = .ok c1 [("build/minified/build/pdf.js", c1), ("build/minified/build/pdf.worker.js", c2), ("build/minified/build/pdf.sandbox.js", c3), ("build/minified/image_decoders/pdf.image_decoders.js", c4), ("build/minified/web/viewer.js", c5), ("build/minified/web/debugger.js", c6)] from rfl)]
  rw [fsm_bind_ok (show readF ("build/minified/" ++ "/build/pdf.worker.js") [("build/minified/build/pdf.js", c1), ("build/minified/build/pdf.worker.js", c2), ("build/minified/build/pdf.sandbox.js", c3), ("build/minified/image_decoders/pdf.image_decoders.js", c4), ("build/minified/web/viewer.js", c5), ("build/minified/web/debugger.js", c6)] = .ok c2 [("build/minified/build/pdf.js", c1), ("build/minified/build/pdf.worker.js", c2), ("build/minified/build/pdf.sandbox.js", c3), ("build/minified/image_decoders/pdf.image_decoders.js", c4), ("build/minified/web/viewer.js", c5), ("build/minified/web/debugger.js", c6)] from rfl)]
  rw [fsm_bind_ok (show readF ("build/minified/" ++ "/build/pdf.sandbox.js") [("build/minified/build/pdf.js", c1), ("build/minified/build/pdf.worker.js", c2), ("build/minified/build/pdf.sandbox.js", c3), ("build/minified/image_decoders/pdf.image_decoders.js", c4), ("build/minified/web/viewer.js", c5), ("build/minified/web/debugger.js", c6)] = .ok c3 [("build/minified/build/pdf.js", c1), ("build/minified/build/pdf.worker.js", c2), ("build/minified/build/pdf.sandbox.js", c3), ("build/minified/image_decoders/pdf.image_decoders.js", c4), ("build/minified/web/viewer.js", c5), ("build/minified/web/debugger.js", c6)] from rfl)]
  rw [fsm_bind_ok (show readF ("build/minified/" ++ "/image_decoders/pdf.image_decoders.js") [("build/minified/build/pdf.js", c1), ("build/minified/build/pdf.worker.js", c2), ("build/minified/build/pdf.sandbox.js", c3), ("build/minified/image_decoders/pdf.image_decoders.js", c4), ("build/minified/web/viewer.js", c5), ("build/minified/web/debugger.js", c6)] = .ok c4 [("build/minified/build/pdf.js", c1), ("build/minified/build/pdf.worker.js", c2), ("build/minified/build/pdf.sandbox.js", c3), ("build/minified/image_decoders/pdf.image_decoders.js", c4), ("build/minified/web/viewer.js", c5), ("build/minified/web/debugger.js", c6)] from rfl)]
  rw [fsm_bind_ok (show readF ("build/minified/" ++ "/web/viewer.js") [("build/minified/build/pdf.js", c1), ("build/minified/build/pdf.worker.js", c2), ("build/minified/build/pdf.sandbox.js", c3), ("build/minified/image_decoders/pdf.image_decoders.js", c4), ("build/minified/web/viewer.js", c5), ("build/minified/web/debugger.js", c6)] = .ok c5 [("build/minified/build/pdf.js", c1), ("build/minified/build/pdf.worker.js", c2), ("build/minified/build/pdf.sandbox.js", c3), ("build/minified/image_decoders/pdf.image_decoders.js", c4), ("build/minified/web/viewer.js", c5), ("build/minified/web/debugger.js", c6)] from rfl)]
  rw [fsm_bind_ok (show liftMin (Minifier.minifyGroup (⟨fun s => .ok s, fun files => .ok (g files)⟩ : Minifier) [("pdf.js", c1), ("viewer.js", c5)]) [("build/minified/build/pdf.js", c1), ("build/minified/build/pdf.worker.js", c2), ("build/minified/build/pdf.sandbox.js", c3), ("build/minified/image_decoders/pdf.image_decoders.js", c4), ("build/minified/web/viewer.js", c5), ("build/minified/web/debugger.js", c6)] = .ok (g [("pdf.js", c1), ("viewer.js", c5)]) [("build/minified/build/pdf.js", c1), ("build/minified/build/pdf.worker.js", c2), ("build/minified/build/pdf.sandbox.js", c3), ("build/minified/image_decoders/pdf.image_decoders.js", c4), ("build/minified/web/viewer.js", c5), ("build/minified/web/debugger.js", c6)] from rfl)]
  rw [fsm_bind_ok (show writeF ("build/minified/" ++ "/web/pdf.viewer.js") (g [("pdf.js", c1), ("viewer.js", c5)]) [("build/minified/build/pdf.js", c1), ("build/minified/build/pdf.worker.js", c2), ("build/minified/build/pdf.sandbox.js", c3), ("build/minified/image_decoders/pdf.image_decoders.js", c4), ("build/minified/web/viewer.js", c5), ("build/minified/web/debugger.js", c6)] = .ok () [("build/minified/build/pdf.js", c1), ("build/minified/build/pdf.worker.js", c2), ("build/minified/build/pdf.sandbox.js", c3), ("build/minified/image_decoders/pdf.image_decoders.js", c4), ("build/minified/web/viewer.js", c5), ("build/minified/web/debugger.js", c6), ("build/minified/web/pdf.viewer.js", (g [("pdf.js", c1), ("viewer.js", c5)]))] from rfl)]
  rw [fsm_bind_ok (show liftMin (Minifier.minifyOne (⟨fun s => .ok s, fun files => .ok (g files)⟩ : Minifier) c1) [("build/minified/build/pdf.js", c1), ("build/minified/build/pdf.worker.js", c2), ("build/minified/build/pdf.sandbox.js", c3), ("build/minified/image_decoders/pdf.image_decoders.js", c4), ("build/minified/web/viewer.js", c5), ("build/minified/web/debugger.js", c6), ("build/minified/web/pdf.viewer.js", (g [("pdf.js", c1), ("viewer.js", c5)]))] = .ok c1 [("build/minified/build/pdf.js", c1), ("build/minified/build/pdf.worker.js", c2), ("build/minified/build/pdf.sandbox.js", c3), ("build/minified/image_decoders/pdf.image_decoders.js", c4), ("build/minified/web/viewer.js", c5), ("build/minified/web/debugger.js", c6), ("build/minified/web/pdf.viewer.js", (g [("pdf.js", c1), ("viewer.js", c5)]))] from rfl)]
  rw [fsm_bind_ok (show writeF ("build/minified/" ++ "/build/pdf.min.js") c1 [("build/minified/build/pdf.js", c1), ("build/minified/build/pdf.worker.js", c2), ("build/minified/build/pdf.sandbox.js", c3), ("build/minified/image_decoders/pdf.image_decoders.js", c4), ("build/minified/web/viewer.js", c5), ("build/minified/web/debugger.js", c6), ("build/minified/web/pdf.viewer.js", (g [("pdf.js", c1), ("viewer.js", c5)]))] = .ok () [("build/minified/build/pdf.js", c1), ("build/minified/build/pdf.worker.js", c2), ("build/minified/build/pdf.sandbox.js", c3), ("build/minified/image_decoders/pdf.image_decoders.js", c4), ("build/minified/web/viewer.js", c5), ("build/minified/web/debugger.js", c6), ("build/minified/web/pdf.viewer.js", (g [("pdf.js", c1), ("viewer.js", c5)])), ("build/minified/build/pdf.min.js", c1)] from rfl)]
  rw [fsm_bind_ok (show liftMin (Minifier.minifyOne (⟨fun s => .ok s, fun files => .ok (g files)⟩ : Minifier) c2) [("build/minified/build/pdf.js", c1), ("build/minified/build/pdf.worker.js", c2), ("build/minified/build/pdf.sandbox.js", c3), ("build/minified/image_decoders/pdf.image_decoders.js", c4), ("build/minified/web/viewer.js", c5), ("build/minified/web/debugger.js", c6), ("build/minified/web/pdf.viewer.js", (g [("pdf.js", c1), ("viewer.js", c5)])), ("build/minified/build/pdf.min.js", c1)] = .ok c2 [("build/minified/build/pdf.js", c1), ("build/minified/build/pdf.worker.js", c2), ("build/minified/build/pdf.sandbox.js", c3), ("build/minified/image_decoders/pdf.image_decoders.js", c4), ("build/minified/web/viewer.js", c5), ("build/minified/web/debugger.js", c6), ("build/minified/web/pdf.viewer.js", (g [("pdf.js", c1), ("viewer.js", c5)])), ("build/minified/build/pdf.min.js", c1)] from rfl)]
  rw [fsm_bind_ok (show writeF ("build/minified/" ++ "/build/pdf.worker.min.js") c2 [("build/minified/build/pdf.js", c1), ("build/minified/build/pdf.worker.js", c2), ("build/minified/build/pdf.sandbox.js", c3), ("build/minified/image_decoders/pdf.image_decoders.js", c4), ("build/minified/web/viewer.js", c5), ("build/minified/web/debugger.js", c6), ("build/minified/web/pdf.viewer.js", (g [("pdf.js", c1), ("viewer.js", c5)])), ("build/minified/build/pdf.min.js", c1)] = .ok () [("build/minified/build/pdf.js", c1), ("build/minified/build/pdf.worker.js", c2), ("build/minified/build/pdf.sandbox.js", c3), ("build/minified/image_decoders/pdf.image_decoders.js", c4), ("build/minified/web/viewer.js", c5), ("build/minified/web/debugger.js", c6), ("build/minified/web/pdf.viewer.js", (g [("pdf.js", c1), ("viewer.js", c5)])), ("build/minified/build/pdf.min.js", c1), ("build/minified/build/pdf.worker.min.js", c2)] from rfl)]
  rw [fsm_bind_ok (show liftMin (Minifier.minifyOne (⟨fun s => .ok s, fun files => .ok (g files)⟩ : Minifier) c3) [("build/minified/build/pdf.js", c1), ("build/minified/build/pdf.worker.js", c2), ("build/minified/build/pdf.sandbox.js", c3), ("build/minified/image_decoders/pdf.image_decoders.js", c4), ("build/minified/web/viewer.js", c5), ("build/minified/web/debugger.js", c6), ("build/minified/web/pdf.viewer.js", (g [("pdf.js", c1), ("viewer.js", c5)])), ("build/minified/build/pdf.min.js", c1), ("build/minified/build/pdf.worker.min.js", c2)] = .ok c3 [("build/minified/build/pdf.js", c1), ("build/minified/build/pdf.worker.js", c2), ("build/minified/build/pdf.sandbox.js", c3), ("build/minified/image_decoders/pdf.image_decoders.js", c4), ("build/minified/web/viewer.js", c5), ("build/minified/web/debugger.js", c6), ("build/minified/web/pdf.viewer.js", (g [("pdf.js", c1), ("viewer.js", c5)])), ("build/minified/build/pdf.min.js", c1), ("build/minified/build/pdf.worker.min.js", c2)] from rfl)]
  rw [fsm_bind_ok (show writeF ("build/minified/" ++ "/build/pdf.sandbox.min.js") c3 [("build/minified/build/pdf.js", c1), ("build/minified/build/pdf.worker.js", c2), ("build/minified/build/pdf.sandbox.js", c3), ("build/minified/image_decoders/pdf.image_decoders.js", c4), ("build/minified/web/viewer.js", c5), ("build/minified/web/debugger.js", c6), ("build/minified/web/pdf.viewer.js", (g [("pdf.js", c1), ("viewer.js", c5)])), ("build/minified/build/pdf.min.js", c1), ("build/minified/build/pdf.worker.min.js", c2)] = .ok () [("build/minified/build/pdf.js", c1), ("build/minified/build/pdf.worker.js", c2), ("build/minified/build/pdf.sandbox.js", c3), ("build/minified/image_decoders/pdf.image_decoders.js", c4), ("build/minified/web/viewer.js", c5), ("build/minified/web/debugger.js", c6), ("build/minified/web/pdf.viewer.js", (g [("pdf.js", c1), ("viewer.js", c5)])), ("build/minified/build/pdf.min.js", c1), ("build/minified/build/pdf.worker.min.js", c2), ("build/minified/build/pdf.sandbox.min.js", c3)] from rfl)]
  rw [fsm_bind_ok (show liftMin (Minifier.minifyOne (⟨fun s => .ok s, fun files => .ok (g files)⟩ : Minifier) c4) [("build/minified/build/pdf.js", c1), ("build/minified/build/pdf.worker.js", c2), ("build/minified/build/pdf.sandbox.js", c3), ("build/minified/image_decoders/pdf.image_decoders.js", c4), ("build/minified/web/viewer.js", c5), ("build/minified/web/debugger.js", c6), ("build/minified/web/pdf.viewer.js", (g [("pdf.js", c1), ("viewer.js", c5)])), ("build/minified/build/pdf.min.js", c1), ("build/minified/build/pdf.worker.min.js", c2), ("build/minified/build/pdf.sandbox.min.js", c3)] = .ok c4 [("build/minified/build/pdf.js", c1), ("build/minified/build/pdf.worker.js", c2), ("build/minified/build/pdf.sandbox.js", c3), ("build/minified/image_decoders/pdf.image_decoders.js", c4), ("build/minified/web/viewer.js", c5), ("build/minified/web/debugger.js", c6), ("build/minified/web/pdf.viewer.js", (g [("pdf.js", c1), ("viewer.js", c5)])), ("build/minified/build/pdf.min.js", c1), ("build/minified/build/pdf.worker.min.js", c2), ("build/minified/build/pdf.sandbox.min.js", c3)] from rfl)]
  rw [fsm_bind_ok (show writeF ("build/minified/" ++ "image_decoders/pdf.image_decoders.min.js") c4 [("build/minified/build/pdf.js", c1), ("build/minified/build/pdf.worker.js", c2), ("build/minified/build/pdf.sandbox.js", c3), ("build/minified/image_decoders/pdf.image_decoders.js", c4), ("build/minified/web/viewer.js", c5), ("build/minified/web/debugger.js", c6), ("build/minified/web/pdf.viewer.js", (g [("pdf.js", c1), ("viewer.js", c5)])), ("build/minified/build/pdf.min.js", c1), ("build/minified/build/pdf.worker.min.js", c2), ("build/minified/build/pdf.sandbox.min.js", c3)] = .ok () [("build/minified/build/pdf.js", c1), ("build/minified/build/pdf.worker.js", c2), ("build/minified/build/pdf.sandbox.js", c3), ("build/minified/image_decoders/pdf.image_decoders.js", c4), ("build/minified/web/viewer.js", c5), ("build/minified/web/debugger.js", c6), ("build/minified/web/pdf.viewer.js", (g [("pdf.js", c1), ("viewer.js", c5)])), ("build/minified/build/pdf.min.js", c1), ("build/minified/build/pdf.worker.min.js", c2), ("build/minified/build/pdf.sandbox.min.js", c3), ("build/minified/image_decoders/pdf.image_decoders.min.js", c4)] from rfl)]
  rw [fsm_bind_ok (show unlinkF ("build/minified/" ++ "/web/viewer.js") [("build/minified/build/pdf.js", c1), ("build/minified/build/pdf.worker.js", c2), ("build/minified/build/pdf.sandbox.js", c3), ("build/minified/image_decoders/pdf.image_decoders.js", c4), ("build/minified/web/viewer.js", c5), ("build/minified/web/debugger.js", c6), ("build/minified/web/pdf.viewer.js", (g [("pdf.js", c1), ("viewer.js", c5)])), ("build/minified/build/pdf.min.js", c1), ("build/minified/build/pdf.worker.min.js", c2), ("build/minified/build/pdf.sandbox.min.js", c3), ("build/minified/image_decoders/pdf.image_decoders.min.js", c4)] = .ok () [("build/minified/build/pdf.js", c1), ("build/minified/build/pdf.worker.js", c2), ("build/minified/build/pdf.sandbox.js", c3), ("build/minified/image_decoders/pdf.image_decoders.js", c4), ("build/minified/web/debugger.js", c6), ("build/minified/web/pdf.viewer.js", (g [("pdf.js", c1), ("viewer.js", c5)])), ("build/minified/build/pdf.min.js", c1), ("build/minified/build/pdf.worker.min.js", c2), ("build/minified/build/pdf.sandbox.min.js", c3), ("build/minified/image_decoders/pdf.image_decoders.min.js", c4)] from rfl)]
  rw [fsm_bind_ok (show unlinkF ("build/minified/" ++ "/web/debugger.js") [("build/minified/build/pdf.js", c1), ("build/minified/build/pdf.worker.js", c2), ("build/minified/build/pdf.sandbox.js", c3), ("build/minified/image_decoders/pdf.image_decoders.js", c4), ("build/minified/web/debugger.js", c6), ("build/minified/web/pdf.viewer.js", (g [("pdf.js", c1), ("viewer.js", c5)])), ("build/minified/build/pdf.min.js", c1), ("build/minified/build/pdf.worker.min.js", c2), ("build/minified/build/pdf.sandbox.min.js", c3), ("build/minified/image_decoders/pdf.image_decoders.min.js", c4)] = .ok () [("build/minified/build/pdf.js", c1), ("build/minified/build/pdf.worker.js", c2), ("build/minified/build/pdf.sandbox.js", c3), ("build/minified/image_decoders/pdf.image_decoders.js", c4), ("build/minified/web/pdf.viewer.js", (g [("pdf.js", c1), ("viewer.js", c5)])), ("build/minified/build/pdf.min.js", c1), ("build/minified/build/pdf.worker.min.js", c2), ("build/minified/build/pdf.sandbox.min.js", c3), ("build/minified/image_decoders/pdf.image_decoders.min.js", c4)] from rfl)]
  rw [fsm_bind_ok (show unlinkF ("build/minified/" ++ "/build/pdf.js") [("build/minified/build/pdf.js", c1), ("build/minified/build/pdf.worker.js", c2), ("build/minified/build/pdf.sandbox.js", c3), ("build/minified/image_decoders/pdf.image_decoders.js", c4), ("build/minified/web/pdf.viewer.js", (g [("pdf.js", c1), ("viewer.js", c5)])), ("build/minified/build/pdf.min.js", c1), ("build/minified/build/pdf.worker.min.js", c2), ("build/minified/build/pdf.sandbox.min.js", c3), ("build/minified/image_decoders/pdf.image_decoders.min.js", c4)] = .ok () [("build/minified/build/pdf.worker.js", c2), ("build/minified/build/pdf.sandbox.js", c3), ("build/minified/image_decoders/pdf.image_decoders.js", c4), ("build/minified/web/pdf.viewer.js", (g [("pdf.js", c1), ("viewer.js", c5)])), ("build/minified/build/pdf.min.js", c1), ("build/minified/build/pdf.worker.min.js", c2), ("build/minified/build/pdf.sandbox.min.js", c3), ("build/minified/image_decoders/pdf.image_decoders.min.js", c4)] from rfl)]
  rw [fsm_bind_ok (show unlinkF ("build/minified/" ++ "/build/pdf.worker.js") [("build/minified/build/pdf.worker.js", c2), ("build/minified/build/pdf.sandbox.js", c3), ("build/minified/image_decoders/pdf.image_decoders.js", c4), ("build/minified/web/pdf.viewer.js", (g [("pdf.js", c1), ("viewer.js", c5)])), ("build/minified/build/pdf.min.js", c1), ("build/minified/build/pdf.worker.min.js", c2), ("build/minified/build/pdf.sandbox.min.js", c3), ("build/minified/image_decoders/pdf.image_decoders.min.js", c4)] = .ok () [("build/minified/build/pdf.sandbox.js", c3), ("build/minified/image_decoders/pdf.image_decoders.js", c4), ("build/minified/web/pdf.viewer.js", (g [("pdf.js", c1), ("viewer.js", c5)])), ("build/minified/build/pdf.min.js", c1), ("build/minified/build/pdf.worker.min.js", c2), ("build/minified/build/pdf.sandbox.min.js", c3), ("build/minified/image_decoders/pdf.image_decoders.min.js", c4)] from rfl)]
  rw [fsm_bind_ok (show unlinkF ("build/minified/" ++ "/build/pdf.sandbox.js") [("build/minified/build/pdf.sandbox.js", c3), ("build/minified/image_decoders/pdf.image_decoders.js", c4), ("build/minified/web/pdf.viewer.js", (g [("pdf.js", c1), ("viewer.js", c5)])), ("build/minified/build/pdf.min.js", c1), ("build/minified/build/pdf.worker.min.js", c2), ("build/minified/build/pdf.sandbox.min.js", c3), ("build/minified/image_decoders/pdf.image_decoders.min.js", c4)] = .ok () [("build/minified/image_decoders/pdf.image_decoders.js", c4), ("build/minified/web/pdf.viewer.js", (g [("pdf.js", c1), ("viewer.js", c5)])), ("build/minified/build/pdf.min.js", c1), ("build/minified/build/pdf.worker.min.js", c2), ("build/minified/build/pdf.sandbox.min.js", c3), ("build/minified/image_decoders/pdf.image_decoders.min.js", c4)] from rfl)]
  rw [fsm_bind_ok (show renameF ("build/minified/" ++ "/build/pdf.min.js") ("build/minified/" ++ "/build/pdf.js") [("build/minified/image_decoders/pdf.image_decoders.js", c4), ("build/minified/web/pdf.viewer.js", (g [("pdf.js", c1), ("viewer.js", c5)])), ("build/minified/build/pdf.min.js", c1), ("build/minified/build/pdf.worker.min.js", c2), ("build/minified/build/pdf.sandbox.min.js", c3), ("build/minified/image_decoders/pdf.image_decoders.min.js", c4)] = .ok () [("build/minified/image_decoders/pdf.image_decoders.js", c4), ("build/minified/web/pdf.viewer.js", (g [("pdf.js", c1), ("viewer.js", c5)])), ("build/minified/build/pdf.worker.min.js", c2), ("build/minified/build/pdf.sandbox.min.js", c3), ("build/minified/image_decoders/pdf.image_decoders.min.js", c4), ("build/minified/build/pdf.js", c1)] from rfl)]
  rw [fsm_bind_ok (show renameF ("build/minified/" ++ "/build/pdf.worker.min.js") ("build/minified/" ++ "/build/pdf.worker.js") [("build/minified/image_decoders/pdf.image_decoders.js", c4), ("build/minified/web/pdf.viewer.js", (g [("pdf.js", c1), ("viewer.js", c5)])), ("build/minified/build/pdf.worker.min.js", c2), ("build/minified/build/pdf.sandbox.min.js", c3), ("build/minified/image_decoders/pdf.image_decoders.min.js", c4), ("build/minified/build/pdf.js", c1)] = .ok () [("build/minified/image_decoders/pdf.image_decoders.js", c4), ("build/minified/web/pdf.viewer.js", (g [("pdf.js", c1), ("viewer.js", c5)])), ("build/minified/build/pdf.sandbox.min.js", c3), ("build/minified/image_decoders/pdf.image_decoders.min.js", c4), ("build/minified/build/pdf.js", c1), ("build/minified/build/pdf.worker.js", c2)] from rfl)]
  rw [fsm_bind_ok (show renameF ("build/minified/" ++ "/build/pdf.sandbox.min.js") ("build/minified/" ++ "/build/pdf.sandbox.js") [("build/minified/image_decoders/pdf.image_decoders.js", c4), ("build/minified/web/pdf.viewer.js", (g [("pdf.js", c1), ("viewer.js", c5)])), ("build/minified/build/pdf.sandbox.min.js", c3), ("build/minified/image_decoders/pdf.image_decoders.min.js", c4), ("build/minified/build/pdf.js", c1), ("build/minified/build/pdf.worker.js", c2)] = .ok () [("build/minified/image_decoders/pdf.image_decoders.js", c4), ("build/minified/web/pdf.viewer.js", (g [("pdf.js", c1), ("viewer.js", c5)])), ("build/minified/image_decoders/pdf.image_decoders.min.js", c4), ("build/minified/build/pdf.js", c1), ("build/minified/build/pdf.worker.js", c2), ("build/minified/build/pdf.sandbox.js", c3)] from rfl)]
  exact (show renameF ("build/minified/" ++ "/image_decoders/pdf.image_decoders.min.js") ("build/minified/" ++ "/image_decoders/pdf.image_decoders.js") [("build/minified/image_decoders/pdf.image_decoders.js", c4), ("build/minified/web/pdf.viewer.js", (g [("pdf.js", c1), ("viewer.js", c5)])), ("build/minified/image_decoders/pdf.image_decoders.min.js", c4), ("build/minified/build/pdf.js", c1), ("build/minified/build/pdf.worker.js", c2), ("build/minified/build/pdf.sandbox.js", c3)] = .ok () [("build/minified/image_decoders/pdf.image_decoders.js", c4), ("build/minified/web/pdf.viewer.js", (g [("pdf.js", c1), ("viewer.js", c5)])), ("build/minified/build/pdf.js", c1), ("build/minified/build/pdf.worker.js", c2), ("build/minified/build/pdf.sandbox.js", c3)] from rfl)

/-- C6: no pre-minified original file is deleted or renamed over until
every file group has been minified and its minified output written: if
the minifier fails at any of the five minification calls, the run aborts
with an error and all six original files (the five bundles and
`web/debugger.js`) are still present with their original contents. -/
theorem C6_minify_failure_preserves_originals (c1 c2 c3 c4 c5 c6 : String)
    (m : Minifier) (e : MErr) (fs2 : FS)
    (h : parseMinified m "build/minified/" (minFS c1 c2 c3 c4 c5 c6) =
      .error e fs2) :
    fsRead fs2 "build/minified/build/pdf.js" = some c1 ∧
    fsRead fs2 "build/minified/build/pdf.worker.js" = some c2 ∧
    fsRead fs2 "build/minified/build/pdf.sandbox.js" = some c3 ∧
    fsRead fs2 "build/minified/image_decoders/pdf.image_decoders.js" =
      some c4 ∧
    fsRead fs2 "build/minified/web/viewer.js" = some c5 ∧
    fsRead fs2 "build/minified/web/debugger.js" = some c6 := by
  cases hg : m.minifyGroup [("pdf.js", c1), ("viewer.js", c5)] with
  | error u =>
    have hrun : parseMinified m "build/minified/" (minFS c1 c2 c3 c4 c5 c6) =
        .error .minifyFailed [("build/minified/build/pdf.js", c1), ("build/minified/build/pdf.worker.js", c2), ("build/minified/build/pdf.sandbox.js", c3), ("build/minified/image_decoders/pdf.image_decoders.js", c4), ("build/minified/web/viewer.js", c5), ("build/minified/web/debugger.js", c6)] := by
      unfold parseMinified
      rw [fsm_bind_ok (show readF ("build/minified/" ++ "/build/pdf.js") (minFS c1 c2 c3 c4 c5 c6) = .ok c1 [("build/minified/build/pdf.js", c1), ("build/minified/build/pdf.worker.js", c2), ("build/minified/build/pdf.sandbox.js", c3), ("build/minified/image_decoders/pdf.image_decoders.js", c4), ("build/minified/web/viewer.js", c5), ("build/minified/web/debugger.js", c6)] from rfl)]
      rw [fsm_bind_ok (show readF ("build/minified/" ++ "/build/pdf.worker.js") [("build/minified/build/pdf.js", c1), ("build/minified/build/pdf.worker.js", c2), ("build/minified/build/pdf.sandbox.js", c3), ("build/minified/image_decoders/pdf.image_decoders.js", c4), ("build/minified/web/viewer.js", c5), ("build/minified/web/debugger.js", c6)] = .ok c2 [("build/minified/build/pdf.js", c1), ("build/minified/build/pdf.worker.js", c2), ("build/minified/build/pdf.sandbox.js", c3), ("build/minified/image_decoders/pdf.image_decoders.js", c4), ("build/minified/web/viewer.js", c5), ("build/minified/web/debugger.js", c6)] from rfl)]
      rw [fsm_bind_ok (show readF ("build/minified/" ++ "/build/pdf.sandbox.js") [("build/minified/build/pdf.js", c1), ("build/minified/build/pdf.worker.js", c2), ("build/minified/build/pdf.sandbox.js", c3), ("build/minified/image_decoders/pdf.image_decoders.js", c4), ("build/minified/web/viewer.js", c5), ("build/minified/web/debugger.js", c6)] = .ok c3 [("build/minified/build/pdf.js", c1), ("build/minified/build/pdf.worker.js", c2), ("build/minified/build/pdf.sandbox.js", c3), ("build/minified/image_decoders/pdf.image_decoders.js", c4), ("build/minified/web/viewer.js", c5), ("build/minified/web/debugger.js", c6)] from rfl)]
      rw [fsm_bind_ok (show readF ("build/minified/" ++ "/image_decoders/pdf.image_decoders.js") [("build/minified/build/pdf.js", c1), ("build/minified/build/pdf.worker.js", c2), ("build/minified/build/pdf.sandbox.js", c3), ("build/minified/image_decoders/pdf.image_decoders.js", c4), ("build/minified/web/viewer.js", c5), ("build/minified/web/debugger.js", c6)] = .ok c4 [("build/minified/build/pdf.js", c1), ("build/minified/build/pdf.worker.js", c2), ("build/minified/build/pdf.sandbox.js", c3), ("build/minified/image_decoders/pdf.image_decoders.js", c4), ("build/minified/web/viewer.js", c5), ("build/minified/web/debugger.js", c6)] from rfl)]
      rw [fsm_bind_ok (show readF ("build/minified/" ++ "/web/viewer.js") [("build/minified/build/pdf.js", c1), ("build/minified/build/pdf.worker.js", c2), ("build/minified/build/pdf.sandbox.js", c3), ("build/minified/image_decoders/pdf.image_decoders.js", c4), ("build/minified/web/viewer.js", c5), ("build/minified/web/debugger.js", c6)] = .ok c5 [("build/minified/build/pdf.js", c1), ("build/minified/build/pdf.worker.js", c2), ("build/minified/build/pdf.sandbox.js", c3), ("build/minified/image_decoders/pdf.image_decoders.js", c4), ("build/minified/web/viewer.js", c5), ("build/minified/web/debugger.js", c6)] from rfl)]
      rw [fsm_bind_error (show liftMin (m.minifyGroup [("pdf.js", c1), ("viewer.js", c5)]) [("build/minified/build/pdf.js", c1), ("build/minified/build/pdf.worker.js", c2), ("build/minified/build/pdf.sandbox.js", c3), ("build/minified/image_decoders/pdf.image_decoders.js", c4), ("build/minified/web/viewer.js", c5), ("build/minified/web/debugger.js", c6)] = .error .minifyFailed [("build/minified/build/pdf.js", c1), ("build/minified/build/pdf.worker.js", c2), ("build/minified/build/pdf.sandbox.js", c3), ("build/minified/image_decoders/pdf.image_decoders.js", c4), ("build/minified/web/viewer.js", c5), ("build/minified/web/debugger.js", c6)] from by unfold liftMin; rw [hg])]
    rw [hrun] at h
    injection h with herr hfs
    subst hfs
    exact ⟨rfl, rfl, rfl, rfl, rfl, rfl⟩
  | ok gv =>
    cases h1 : m.minifyOne c1 with
    | error u =>
      have hrun : parseMinified m "build/minified/" (minFS c1 c2 c3 c4 c5 c6) =
          .error .minifyFailed [("build/minified/build/pdf.js", c1), ("build/minified/build/pdf.worker.js", c2), ("build/minified/build/pdf.sandbox.js", c3), ("build/minified/image_decoders/pdf.image_decoders.js", c4), ("build/minified/web/viewer.js", c5), ("build/minified/web/debugger.js", c6), ("build/minified/web/pdf.viewer.js", gv)] := by
        unfold parseMinified
        rw [fsm_bind_ok (show readF ("build/minified/" ++ "/build/pdf.js") (minFS c1 c2 c3 c4 c5 c6) = .ok c1 [("build/minified/build/pdf.js", c1), ("build/minified/build/pdf.worker.js", c2), ("build/minified/build/pdf.sandbox.js", c3), ("build/minified/image_decoders/pdf.image_decoders.js", c4), ("build/minified/web/viewer.js", c5), ("build/minified/web/debugger.js", c6)] from rfl)]
        rw [fsm_bind_ok (show readF ("build/minified/" ++ "/build/pdf.worker.js") [("build/minified/build/pdf.js", c1), ("build/minified/build/pdf.worker.js", c2), ("build/minified/build/pdf.sandbox.js", c3), ("build/minified/image_decoders/pdf.image_decoders.js", c4), ("build/minified/web/viewer.js", c5), ("build/minified/web/debugger.js", c6)] = .ok c2 [("build/minified/build/pdf.js", c1), ("build/minified/build/pdf.worker.js", c2), ("build/minified/build/pdf.sandbox.js", c3), ("build/minified/image_decoders/pdf.image_decoders.js", c4), ("build/minified/web/viewer.js", c5), ("build/minified/web/debugger.js", c6)] from rfl)]
        rw [fsm_bind_ok (show readF ("build/minified/" ++ "/build/pdf.sandbox.js") [("build/minified/build/pdf.js", c1), ("build/minified/build/pdf.worker.js", c2), ("build/minified/build/pdf.sandbox.js", c3), ("build/minified/image_decoders/pdf.image_decoders.js", c4), ("build/minified/web/viewer.js", c5), ("build/minified/web/debugger.js", c6)] = .ok c3 [("build/minified/build/pdf.js", c1), ("build/minified/build/pdf.worker.js", c2), ("build/minified/build/pdf.sandbox.js", c3), ("build/minified/image_decoders/pdf.image_decoders.js", c4), ("build/minified/web/viewer.js", c5), ("build/minified/web/debugger.js", c6)] from rfl)]
        rw [fsm_bind_ok (show readF ("build/minified/" ++ "/image_decoders/pdf.image_decoders.js") [("build/minified/build/pdf.js", c1), ("build/minified/build/pdf.worker.js", c2), ("build/minified/build/pdf.sandbox.js", c3), ("build/minified/image_decoders/pdf.image_decoders.js", c4), ("build/minified/web/viewer.js", c5), ("build/minified/web/debugger.js", c6)] = .ok c4 [("build/minified/build/pdf.js", c1), ("build/minified/build/pdf.worker.js", c2), ("build/minified/build/pdf.sandbox.js", c3), ("build/minified/image_decoders/pdf.image_decoders.js", c4), ("build/minified/web/viewer.js", c5), ("build/minified/web/debugger.js", c6)] from rfl)]
        rw [fsm_bind_ok (show readF ("build/minified/" ++ "/web/viewer.js") [("build/minified/build/pdf.js", c1), ("build/minified/build/pdf.worker.js", c2), ("build/minified/build/pdf.sandbox.js", c3), ("build/minified/image_decoders/pdf.image_decoders.js", c4), ("build/minified/web/viewer.js", c5), ("build/minified/web/debugger.js", c6)] = .ok c5 [("build/minified/build/pdf.js", c1), ("build/minified/build/pdf.worker.js", c2), ("build/minified/build/pdf.sandbox.js", c3), ("build/minified/image_decoders/pdf.image_decoders.js", c4), ("build/minified/web/viewer.js", c5), ("build/minified/web/debugger.js", c6)] from rfl)]
        rw [fsm_bind_ok (show liftMin (m.minifyGroup [("pdf.js", c1), ("viewer.js", c5)]) [("build/minified/build/pdf.js", c1), ("build/minified/build/pdf.worker.js", c2), ("build/minified/build/pdf.sandbox.js", c3), ("build/minified/image_decoders/pdf.image_decoders.js", c4), ("build/minified/web/viewer.js", c5), ("build/minified/web/debugger.js", c6)] = .ok gv [("build/minified/build/pdf.js", c1), ("build/minified/build/pdf.worker.js", c2), ("build/minified/build/pdf.sandbox.js", c3), ("build/minified/image_decoders/pdf.image_decoders.js", c4), ("build/minified/web/viewer.js", c5), ("build/minified/web/debugger.js", c6)] from by unfold liftMin; rw [hg])]
        rw [fsm_bind_ok (show writeF ("build/minified/" ++ "/web/pdf.viewer.js") gv [("build/minified/build/pdf.js", c1), ("build/minified/build/pdf.worker.js", c2), ("build/minified/build/pdf.sandbox.js", c3), ("build/minified/image_decoders/pdf.image_decoders.js", c4), ("build/minified/web/viewer.js", c5), ("build/minified/web/debugger.js", c6)] = .ok () [("build/minified/build/pdf.js", c1), ("build/minified/build/pdf.worker.js", c2), ("build/minified/build/pdf.sandbox.js", c3), ("build/minified/image_decoders/pdf.image_decoders.js", c4), ("build/minified/web/viewer.js", c5), ("build/minified/web/debugger.js", c6), ("build/minified/web/pdf.viewer.js", gv)] from rfl)]
        rw [fsm_bind_error (show liftMin (m.minifyOne c1) [("build/minified/build/pdf.js", c1), ("build/minified/build/pdf.worker.js", c2), ("build/minified/build/pdf.sandbox.js", c3), ("build/minified/image_decoders/pdf.image_decoders.js", c4), ("build/minified/web/viewer.js", c5), ("build/minified/web/debugger.js", c6), ("build/minified/web/pdf.viewer.js", gv)] = .error .minifyFailed [("build/minified/build/pdf.js", c1), ("build/minified/build/pdf.worker.js", c2), ("build/minified/build/pdf.sandbox.js", c3), ("build/minified/image_decoders/pdf.image_decoders.js", c4), ("build/minified/web/viewer.js", c5), ("build/minified/web/debugger.js", c6), ("build/minified/web/pdf.viewer.js", gv)] from by unfold liftMin; rw [h1])]
      rw [hrun] at h
      injection h with herr hfs
      subst hfs
      exact ⟨rfl, rfl, rfl, rfl, rfl, rfl⟩
    | ok o1 =>
      cases h2 : m.minifyOne c2 with
      | error u =>
        have hrun : parseMinified m "build/minified/" (minFS c1 c2 c3 c4 c5 c6) =
            .error .minifyFailed [("build/minified/build/pdf.js", c1), ("build/minified/build/pdf.worker.js", c2), ("build/minified/build/pdf.sandbox.js", c3), ("build/minified/image_decoders/pdf.image_decoders.js", c4), ("build/minified/web/viewer.js", c5), ("build/minified/web/debugger.js", c6), ("build/minified/web/pdf.viewer.js", gv), ("build/minified/build/pdf.min.js", o1)] := by
          unfold parseMinified
          rw [fsm_bind_ok (show readF ("build/minified/" ++ "/build/pdf.js") (minFS c1 c2 c3 c4 c5 c6) = .ok c1 [("build/minified/build/pdf.js", c1), ("build/minified/build/pdf.worker.js", c2), ("build/minified/build/pdf.sandbox.js", c3), ("build/minified/image_decoders/pdf.image_decoders.js", c4), ("build/minified/web/viewer.js", c5), ("build/minified/web/debugger.js", c6)] from rfl)]
          rw [fsm_bind_ok (show readF ("build/minified/" ++ "/build/pdf.worker.js") [("build/minified/build/pdf.js", c1), ("build/minified/build/pdf.worker.js", c2), ("build/minified/build/pdf.sandbox.js", c3), ("build/minified/image_decoders/pdf.image_decoders.js", c4), ("build/minified/web/viewer.js", c5), ("build/minified/web/debugger.js", c6)] = .ok c2 [("build/minified/build/pdf.js", c1), ("build/minified/build/pdf.worker.js", c2), ("build/minified/build/pdf.sandbox.js", c3), ("build/minified/image_decoders/pdf.image_decoders.js", c4), ("build/minified/web/viewer.js", c5), ("build/minified/web/debugger.js", c6)] from rfl)]
          rw [fsm_bind_ok (show readF ("build/minified/" ++ "/build/pdf.sandbox.js") [("build/minified/build/pdf.js", c1), ("build/minified/build/pdf.worker.js", c2), ("build/minified/build/pdf.sandbox.js", c3), ("build/minified/image_decoders/pdf.image_decoders.js", c4), ("build/minified/web/viewer.js", c5), ("build/minified/web/debugger.js", c6)] = .ok c3 [("build/minified/build/pdf.js", c1), ("build/minified/build/pdf.worker.js", c2), ("build/minified/build/pdf.sandbox.js", c3), ("build/minified/image_decoders/pdf.image_decoders.js", c4), ("build/minified/web/viewer.js", c5), ("build/minified/web/debugger.js", c6)] from rfl)]
          rw [fsm_bind_ok (show readF ("build/minified/" ++ "/image_decoders/pdf.image_decoders.js") [("build/minified/build/pdf.js", c1), ("build/minified/build/pdf.worker.js", c2), ("build/minified/build/pdf.sandbox.js", c3), ("build/minified/image_decoders/pdf.image_decoders.js", c4), ("build/minified/web/viewer.js", c5), ("build/minified/web/debugger.js", c6)] = .ok c4 [("build/minified/build/pdf.js", c1), ("build/minified/build/pdf.worker.js", c2), ("build/minified/build/pdf.sandbox.js", c3), ("build/minified/image_decoders/pdf.image_decoders.js", c4), ("build/minified/web/viewer.js", c5), ("build/minified/web/debugger.js", c6)] from rfl)]
          rw [fsm_bind_ok (show readF ("build/minified/" ++ "/web/viewer.js") [("build/minified/build/pdf.js", c1), ("build/minified/build/pdf.worker.js", c2), ("build/minified/build/pdf.sandbox.js", c3), ("build/minified/image_decoders/pdf.image_decoders.js", c4), ("build/minified/web/viewer.js", c5), ("build/minified/web/debugger.js", c6)] = .ok c5 [("build/minified/build/pdf.js", c1), ("build/minified/build/pdf.worker.js", c2), ("build/minified/build/pdf.sandbox.js", c3), ("build/minified/image_decoders/pdf.image_decoders.js", c4), ("build/minified/web/viewer.js", c5), ("build/minified/web/debugger.js", c6)] from rfl)]
          rw [fsm_bind_ok (show liftMin (m.minifyGroup [("pdf.js", c1), ("viewer.js", c5)]) [("build/minified/build/pdf.js", c1), ("build/minified/build/pdf.worker.js", c2), ("build/minified/build/pdf.sandbox.js", c3), ("build/minified/image_decoders/pdf.image_decoders.js", c4), ("build/minified/web/viewer.js", c5), ("build/minified/web/debugger.js", c6)] = .ok gv [("build/minified/build/pdf.js", c1), ("build/minified/build/pdf.worker.js", c2), ("build/minified/build/pdf.sandbox.js", c3), ("build/minified/image_decoders/pdf.image_decoders.js", c4), ("build/minified/web/viewer.js", c5), ("build/minified/web/debugger.js", c6)] from by unfold liftMin; rw [hg])]
          rw [fsm_bind_ok (show writeF ("build/minified/" ++ "/web/pdf.viewer.js") gv [("build/minified/build/pdf.js", c1), ("build/minified/build/pdf.worker.js", c2), ("build/minified/build/pdf.sandbox.js", c3), ("build/minified/image_decoders/pdf.image_decoders.js", c4), ("build/minified/web/viewer.js", c5), ("build/minified/web/debugger.js", c6)] = .ok () [("build/minified/build/pdf.js", c1), ("build/minified/build/pdf.worker.js", c2), ("build/minified/build/pdf.sandbox.js", c3), ("build/minified/image_decoders/pdf.image_decoders.js", c4), ("build/minified/web/viewer.js", c5), ("build/minified/web/debugger.js", c6), ("build/minified/web/pdf.viewer.js", gv)] from rfl)]
          rw [fsm_bind_ok (show liftMin (m.minifyOne c1) [("build/minified/build/pdf.js", c1), ("build/minified/build/pdf.worker.js", c2), ("build/minified/build/pdf.sandbox.js", c3), ("build/minified/image_decoders/pdf.image_decoders.js", c4), ("build/minified/web/viewer.js", c5), ("build/minified/web/debugger.js", c6), ("build/minified/web/pdf.viewer.js", gv)] = .ok o1 [("build/minified/build/pdf.js", c1), ("build/minified/build/pdf.worker.js", c2), ("build/minified/build/pdf.sandbox.js", c3), ("build/minified/image_decoders/pdf.image_decoders.js", c4), ("build/minified/web/viewer.js", c5), ("build/minified/web/debugger.js", c6), ("build/minified/web/pdf.viewer.js", gv)] from by unfold liftMin; rw [h1])]
          rw [fsm_bind_ok (show writeF ("build/minified/" ++ "/build/pdf.min.js") o1 [("build/minified/build/pdf.js", c1), ("build/minified/build/pdf.worker.js", c2), ("build/minified/build/pdf.sandbox.js", c3), ("build/minified/image_decoders/pdf.image_decoders.js", c4), ("build/minified/web/viewer.js", c5), ("build/minified/web/debugger.js", c6), ("build/minified/web/pdf.viewer.js", gv)] = .ok () [("build/minified/build/pdf.js", c1), ("build/minified/build/pdf.worker.js", c2), ("build/minified/build/pdf.sandbox.js", c3), ("build/minified/image_decoders/pdf.image_decoders.js", c4), ("build/minified/web/viewer.js", c5), ("build/minified/web/debugger.js", c6), ("build/minified/web/pdf.viewer.js", gv), ("build/minified/build/pdf.min.js", o1)] from rfl)]
          rw [fsm_bind_error (show liftMin (m.minifyOne c2) [("build/minified/build/pdf.js", c1), ("build/minified/build/pdf.worker.js", c2), ("build/minified/build/pdf.sandbox.js", c3), ("build/minified/image_decoders/pdf.image_decoders.js", c4), ("build/minified/web/viewer.js", c5), ("build/minified/web/debugger.js", c6), ("build/minified/web/pdf.viewer.js", gv), ("build/minified/build/pdf.min.js", o1)] = .error .minifyFailed [("build/minified/build/pdf.js", c1), ("build/minified/build/pdf.worker.js", c2), ("build/minified/build/pdf.sandbox.js", c3), ("build/minified/image_decoders/pdf.image_decoders.js", c4), ("build/minified/web/viewer.js", c5), ("build/minified/web/debugger.js", c6), ("build/minified/web/pdf.viewer.js", gv), ("build/minified/build/pdf.min.js", o1)] from by unfold liftMin; rw [h2])]
        rw [hrun] at h
        injection h with herr hfs
        subst hfs
        exact ⟨rfl, rfl, rfl, rfl, rfl, rfl⟩
      | ok o2 =>
        cases h3 : m.minifyOne c3 with
        | error u =>
          have hrun : parseMinified m "build/minified/" (minFS c1 c2 c3 c4 c5 c6) =
              .error .minifyFailed [("build/minified/build/pdf.js", c1), ("build/minified/build/pdf.worker.js", c2), ("build/minified/build/pdf.sandbox.js", c3), ("build/minified/image_decoders/pdf.image_decoders.js", c4), ("build/minified/web/viewer.js", c5), ("build/minified/web/debugger.js", c6), ("build/minified/web/pdf.viewer.js", gv), ("build/minified/build/pdf.min.js", o1), ("build/minified/build/pdf.worker.min.js", o2)] := by
            unfold parseMinified
            rw [fsm_bind_ok (show readF ("build/minified/" ++ "/build/pdf.js") (minFS c1 c2 c3 c4 c5 c6) = .ok c1 [("build/minified/build/pdf.js", c1), ("build/minified/build/pdf.worker.js", c2), ("build/minified/build/pdf.sandbox.js", c3), ("build/minified/image_decoders/pdf.image_decoders.js", c4), ("build/minified/web/viewer.js", c5), ("build/minified/web/debugger.js", c6)] from rfl)]
            rw [fsm_bind_ok (show readF ("build/minified/" ++ "/build/pdf.worker.js") [("build/minified/build/pdf.js", c1), ("build/minified/build/pdf.worker.js", c2), ("build/minified/build/pdf.sandbox.js", c3), ("build/minified/image_decoders/pdf.image_decoders.js", c4), ("build/minified/web/viewer.js", c5), ("build/minified/web/debugger.js", c6)] = .ok c2 [("build/minified/build/pdf.js", c1), ("build/minified/build/pdf.worker.js", c2), ("build/minified/build/pdf.sandbox.js", c3), ("build/minified/image_decoders/pdf.image_decoders.js", c4), ("build/minified/web/viewer.js", c5), ("build/minified/web/debugger.js", c6)] from rfl)]
            rw [fsm_bind_ok (show readF ("build/minified/" ++ "/build/pdf.sandbox.js") [("build/minified/build/pdf.js", c1), ("build/minified/build/pdf.worker.js", c2), ("build/minified/build/pdf.sandbox.js", c3), ("build/minified/image_decoders/pdf.image_decoders.js", c4), ("build/minified/web/viewer.js", c5), ("build/minified/web/debugger.js", c6)] = .ok c3 [("build/minified/build/pdf.js", c1), ("build/minified/build/pdf.worker.js", c2), ("build/minified/build/pdf.sandbox.js", c3), ("build/minified/image_decoders/pdf.image_decoders.js", c4), ("build/minified/web/viewer.js", c5), ("build/minified/web/debugger.js", c6)] from rfl)]
            rw [fsm_bind_ok (show readF ("build/minified/" ++ "/image_decoders/pdf.image_decoders.js") [("build/minified/build/pdf.js", c1), ("build/minified/build/pdf.worker.js", c2), ("build/minified/build/pdf.sandbox.js", c3), ("build/minified/image_decoders/pdf.image_decoders.js", c4), ("build/minified/web/viewer.js", c5), ("build/minified/web/debugger.js", c6)] = .ok c4 [("build/minified/build/pdf.js", c1), ("build/minified/build/pdf.worker.js", c2), ("build/minified/build/pdf.sandbox.js", c3), ("build/minified/image_decoders/pdf.image_decoders.js", c4), ("build/minified/web/viewer.js", c5), ("build/minified/web/debugger.js", c6)] from rfl)]
            rw [fsm_bind_ok (show readF ("build/minified/" ++ "/web/viewer.js") [("build/minified/build/pdf.js", c1), ("build/minified/build/pdf.worker.js", c2), ("build/minified/build/pdf.sandbox.js", c3), ("build/minified/image_decoders/pdf.image_decoders.js", c4), ("build/minified/web/viewer.js", c5), ("build/minified/web/debugger.js", c6)] = .ok c5 [("build/minified/build/pdf.js", c1), ("build/minified/build/pdf.worker.js", c2), ("build/minified/build/pdf.sandbox.js", c3), ("build/minified/image_decoders/pdf.image_decoders.js", c4), ("build/minified/web/viewer.js", c5), ("build/minified/web/debugger.js", c6)] from rfl)]
            rw [fsm_bind_ok (show liftMin (m.minifyGroup [("pdf.js", c1), ("viewer.js", c5)]) [("build/minified/build/pdf.js", c1), ("build/minified/build/pdf.worker.js", c2), ("build/minified/build/pdf.sandbox.js", c3), ("build/minified/image_decoders/pdf.image_decoders.js", c4), ("build/minified/web/viewer.js", c5), ("build/minified/web/debugger.js", c6)] = .ok gv [("build/minified/build/pdf.js", c1), ("build/minified/build/pdf.worker.js", c2), ("build/minified/build/pdf.sandbox.js", c3), ("build/minified/image_decoders/pdf.image_decoders.js", c4), ("build/minified/web/viewer.js", c5), ("build/minified/web/debugger.js", c6)] from by unfold liftMin; rw [hg])]
            rw [fsm_bind_ok (show writeF ("build/minified/" ++ "/web/pdf.viewer.js") gv [("build/minified/build/pdf.js", c1), ("build/minified/build/pdf.worker.js", c2), ("build/minified/build/pdf.sandbox.js", c3), ("build/minified/image_decoders/pdf.image_decoders.js", c4), ("build/minified/web/viewer.js", c5), ("build/minified/web/debugger.js", c6)] = .ok () [("build/minified/build/pdf.js", c1), ("build/minified/build/pdf.worker.js", c2), ("build/minified/build/pdf.sandbox.js", c3), ("build/minified/image_decoders/pdf.image_decoders.js", c4), ("build/minified/web/viewer.js", c5), ("build/minified/web/debugger.js", c6), ("build/minified/web/pdf.viewer.js", gv)] from rfl)]
            rw [fsm_bind_ok (show liftMin (m.minifyOne c1) [("build/minified/build/pdf.js", c1), ("build/minified/build/pdf.worker.js", c2), ("build/minified/build/pdf.sandbox.js", c3), ("build/minified/image_decoders/pdf.image_decoders.js", c4), ("build/minified/web/viewer.js", c5), ("build/minified/web/debugger.js", c6), ("build/minified/web/pdf.viewer.js", gv)] = .ok o1 [("build/minified/build/pdf.js", c1), ("build/minified/build/pdf.worker.js", c2), ("build/minified/build/pdf.sandbox.js", c3), ("build/minified/image_decoders/pdf.image_decoders.js", c4), ("build/minified/web/viewer.js", c5), ("build/minified/web/debugger.js", c6), ("build/minified/web/pdf.viewer.js", gv)] from by unfold liftMin; rw [h1])]
            rw [fsm_bind_ok (show writeF ("build/minified/" ++ "/build/pdf.min.js") o1 [("build/minified/build/pdf.js", c1), ("build/minified/build/pdf.worker.js", c2), ("build/minified/build/pdf.sandbox.js", c3), ("build/minified/image_decoders/pdf.image_decoders.js", c4), ("build/minified/web/viewer.js", c5), ("build/minified/web/debugger.js", c6), ("build/minified/web/pdf.viewer.js", gv)] = .ok () [("build/minified/build/pdf.js", c1), ("build/minified/build/pdf.worker.js", c2), ("build/minified/build/pdf.sandbox.js", c3), ("build/minified/image_decoders/pdf.image_decoders.js", c4), ("build/minified/web/viewer.js", c5), ("build/minified/web/debugger.js", c6), ("build/minified/web/pdf.viewer.js", gv), ("build/minified/build/pdf.min.js", o1)] from rfl)]
            rw [fsm_bind_ok (show liftMin (m.minifyOne c2) [("build/minified/build/pdf.js", c1), ("build/minified/build/pdf.worker.js", c2), ("build/minified/build/pdf.sandbox.js", c3), ("build/minified/image_decoders/pdf.image_decoders.js", c4), ("build/minified/web/viewer.js", c5), ("build/minified/web/debugger.js", c6), ("build/minified/web/pdf.viewer.js", gv), ("build/minified/build/pdf.min.js", o1)] = .ok o2 [("build/minified/build/pdf.js", c1), ("build/minified/build/pdf.worker.js", c2), ("build/minified/build/pdf.sandbox.js", c3), ("build/minified/image_decoders/pdf.image_decoders.js", c4), ("build/minified/web/viewer.js", c5), ("build/minified/web/debugger.js", c6), ("build/minified/web/pdf.viewer.js", gv), ("build/minified/build/pdf.min.js", o1)] from by unfold liftMin; rw [h2])]
            rw [fsm_bind_ok (show writeF ("build/minified/" ++ "/build/pdf.worker.min.js") o2 [("build/minified/build/pdf.js", c1), ("build/minified/build/pdf.worker.js", c2), ("build/minified/build/pdf.sandbox.js", c3), ("build/minified/image_decoders/pdf.image_decoders.js", c4), ("build/minified/web/viewer.js", c5), ("build/minified/web/debugger.js", c6), ("build/minified/web/pdf.viewer.js", gv), ("build/minified/build/pdf.min.js", o1)] = .ok () [("build/minified/build/pdf.js", c1), ("build/minified/build/pdf.worker.js", c2), ("build/minified/build/pdf.sandbox.js", c3), ("build/minified/image_decoders/pdf.image_decoders.js", c4), ("build/minified/web/viewer.js", c5), ("build/minified/web/debugger.js", c6), ("build/minified/web/pdf.viewer.js", gv), ("build/minified/build/pdf.min.js", o1), ("build/minified/build/pdf.worker.min.js", o2)] from rfl)]
            rw [fsm_bind_error (show liftMin (m.minifyOne c3) [("build/minified/build/pdf.js", c1), ("build/minified/build/pdf.worker.js", c2), ("build/minified/build/pdf.sandbox.js", c3), ("build/minified/image_decoders/pdf.image_decoders.js", c4), ("build/minified/web/viewer.js", c5), ("build/minified/web/debugger.js", c6), ("build/minified/web/pdf.viewer.js", gv), ("build/minified/build/pdf.min.js", o1), ("build/minified/build/pdf.worker.min.js", o2)] = .error .minifyFailed [("build/minified/build/pdf.js", c1), ("build/minified/build/pdf.worker.js", c2), ("build/minified/build/pdf.sandbox.js", c3), ("build/minified/image_decoders/pdf.image_decoders.js", c4), ("build/minified/web/viewer.js", c5), ("build/minified/web/debugger.js", c6), ("build/minified/web/pdf.viewer.js", gv), ("build/minified/build/pdf.min.js", o1), ("build/minified/build/pdf.worker.min.js", o2)] from by unfold liftMin; rw [h3])]
          rw [hrun] at h
          injection h with herr hfs
          subst hfs
          exact ⟨rfl, rfl, rfl, rfl, rfl, rfl⟩
        | ok o3 =>
          cases h4 : m.minifyOne c4 with
          | error u =>
            have hrun : parseMinified m "build/minified/" (minFS c1 c2 c3 c4 c5 c6) =
                .error .minifyFailed [("build/minified/build/pdf.js", c1), ("build/minified/build/pdf.worker.js", c2), ("build/minified/build/pdf.sandbox.js", c3), ("build/minified/image_decoders/pdf.image_decoders.js", c4), ("build/minified/web/viewer.js", c5), ("build/minified/web/debugger.js", c6), ("build/minified/web/pdf.viewer.js", gv), ("build/minified/build/pdf.min.js", o1), ("build/minified/build/pdf.worker.min.js", o2), ("build/minified/build/pdf.sandbox.min.js", o3)] := by
              unfold parseMinified
              rw [fsm_bind_ok (show readF ("build/minified/" ++ "/build/pdf.js") (minFS c1 c2 c3 c4 c5 c6) = .ok c1 [("build/minified/build/pdf.js", c1), ("build/minified/build/pdf.worker.js", c2), ("build/minified/build/pdf.sandbox.js", c3), ("build/minified/image_decoders/pdf.image_decoders.js", c4), ("build/minified/web/viewer.js", c5), ("build/minified/web/debugger.js", c6)] from rfl)]
              rw [fsm_bind_ok (show readF ("build/minified/" ++ "/build/pdf.worker.js") [("build/minified/build/pdf.js", c1), ("build/minified/build/pdf.worker.js", c2), ("build/minified/build/pdf.sandbox.js", c3), ("build/minified/image_decoders/pdf.image_decoders.js", c4), ("build/minified/web/viewer.js", c5), ("build/minified/web/debugger.js", c6)] = .ok c2 [("build/minified/build/pdf.js", c1), ("build/minified/build/pdf.worker.js", c2), ("build/minified/build/pdf.sandbox.js", c3), ("build/minified/image_decoders/pdf.image_decoders.js", c4), ("build/minified/web/viewer.js", c5), ("build/minified/web/debugger.js", c6)] from rfl)]
              rw [fsm_bind_ok (show readF ("build/minified/" ++ "/build/pdf.sandbox.js") [("build/minified/build/pdf.js", c1), ("build/minified/build/pdf.worker.js", c2), ("build/minified/build/pdf.sandbox.js", c3), ("build/minified/image_decoders/pdf.image_decoders.js", c4), ("build/minified/web/viewer.js", c5), ("build/minified/web/debugger.js", c6)] = .ok c3 [("build/minified/build/pdf.js", c1), ("build/minified/build/pdf.worker.js", c2), ("build/minified/build/pdf.sandbox.js", c3), ("build/minified/image_decoders/pdf.image_decoders.js", c4), ("build/minified/web/viewer.js", c5), ("build/minified/web/debugger.js", c6)] from rfl)]
              rw [fsm_bind_ok (show readF ("build/minified/" ++ "/image_decoders/pdf.image_decoders.js") [("build/minified/build/pdf.js", c1), ("build/minified/build/pdf.worker.js", c2), ("build/minified/build/pdf.sandbox.js", c3), ("build/minified/image_decoders/pdf.image_decoders.js", c4), ("build/minified/web/viewer.js", c5), ("build/minified/web/debugger.js", c6)] = .ok c4 [("build/minified/build/pdf.js", c1), ("build/minified/build/pdf.worker.js", c2), ("build/minified/build/pdf.sandbox.js", c3), ("build/minified/image_decoders/pdf.image_decoders.js", c4), ("build/minified/web/viewer.js", c5), ("build/minified/web/debugger.js", c6)] from rfl)]
              rw [fsm_bind_ok (show readF ("build/minified/" ++ "/web/viewer.js") [("build/minified/build/pdf.js", c1), ("build/minified/build/pdf.worker.js", c2), ("build/minified/build/pdf.sandbox.js", c3), ("build/minified/image_decoders/pdf.image_decoders.js", c4), ("build/minified/web/viewer.js", c5), ("build/minified/web/debugger.js", c6)] = .ok c5 [("build/minified/build/pdf.js", c1), ("build/minified/build/pdf.worker.js", c2), ("build/minified/build/pdf.sandbox.js", c3), ("build/minified/image_decoders/pdf.image_decoders.js", c4), ("build/minified/web/viewer.js", c5), ("build/minified/web/debugger.js", c6)] from rfl)]
              rw [fsm_bind_ok (show liftMin (m.minifyGroup [("pdf.js", c1), ("viewer.js", c5)]) [("build/minified/build/pdf.js", c1), ("build/minified/build/pdf.worker.js", c2), ("build/minified/build/pdf.sandbox.js", c3), ("build/minified/image_decoders/pdf.image_decoders.js", c4), ("build/minified/web/viewer.js", c5), ("build/minified/web/debugger.js", c6)] = .ok gv [("build/minified/build/pdf.js", c1), ("build/minified/build/pdf.worker.js", c2), ("build/minified/build/pdf.sandbox.js", c3), ("build/minified/image_decoders/pdf.image_decoders.js", c4), ("build/minified/web/viewer.js", c5), ("build/minified/web/debugger.js", c6)] from by unfold liftMin; rw [hg])]
              rw [fsm_bind_ok (show writeF ("build/minified/" ++ "/web/pdf.viewer.js") gv [("build/minified/build/pdf.js", c1), ("build/minified/build/pdf.worker.js", c2), ("build/minified/build/pdf.sandbox.js", c3), ("build/minified/image_decoders/pdf.image_decoders.js", c4), ("build/minified/web/viewer.js", c5), ("build/minified/web/debugger.js", c6)] = .ok () [("build/minified/build/pdf.js", c1), ("build/minified/build/pdf.worker.js", c2), ("build/minified/build/pdf.sandbox.js", c3), ("build/minified/image_decoders/pdf.image_decoders.js", c4), ("build/minified/web/viewer.js", c5), ("build/minified/web/debugger.js", c6), ("build/minified/web/pdf.viewer.js", gv)] from rfl)]
              rw [fsm_bind_ok (show liftMin (m.minifyOne c1) [("build/minified/build/pdf.js", c1), ("build/minified/build/pdf.worker.js", c2), ("build/minified/build/pdf.sandbox.js", c3), ("build/minified/image_decoders/pdf.image_decoders.js", c4), ("build/minified/web/viewer.js", c5), ("build/minified/web/debugger.js", c6), ("build/minified/web/pdf.viewer.js", gv)] = .ok o1 [("build/minified/build/pdf.js", c1), ("build/minified/build/pdf.worker.js", c2), ("build/minified/build/pdf.sandbox.js", c3), ("build/minified/image_decoders/pdf.image_decoders.js", c4), ("build/minified/web/viewer.js", c5), ("build/minified/web/debugger.js", c6), ("build/minified/web/pdf.viewer.js", gv)] from by unfold liftMin; rw [h1])]
              rw [fsm_bind_ok (show writeF ("build/minified/" ++ "/build/pdf.min.js") o1 [("build/minified/build/pdf.js", c1), ("build/minified/build/pdf.worker.js", c2), ("build/minified/build/pdf.sandbox.js", c3), ("build/minified/image_decoders/pdf.image_decoders.js", c4), ("build/minified/web/viewer.js", c5), ("build/minified/web/debugger.js", c6), ("build/minified/web/pdf.viewer.js", gv)] = .ok () [("build/minified/build/pdf.js", c1), ("build/minified/build/pdf.worker.js", c2), ("build/minified/build/pdf.sandbox.js", c3), ("build/minified/image_decoders/pdf.image_decoders.js", c4), ("build/minified/web/viewer.js", c5), ("build/minified/web/debugger.js", c6), ("build/minified/web/pdf.viewer.js", gv), ("build/minified/build/pdf.min.js", o1)] from rfl)]
              rw [fsm_bind_ok (show liftMin (m.minifyOne c2) [("build/minified/build/pdf.js", c1), ("build/minified/build/pdf.worker.js", c2), ("build/minified/build/pdf.sandbox.js", c3), ("build/minified/image_decoders/pdf.image_decoders.js", c4), ("build/minified/web/viewer.js", c5), ("build/minified/web/debugger.js", c6), ("build/minified/web/pdf.viewer.js", gv), ("build/minified/build/pdf.min.js", o1)] = .ok o2 [("build/minified/build/pdf.js", c1), ("build/minified/build/pdf.worker.js", c2), ("build/minified/build/pdf.sandbox.js", c3), ("build/minified/image_decoders/pdf.image_decoders.js", c4), ("build/minified/web/viewer.js", c5), ("build/minified/web/debugger.js", c6), ("build/minified/web/pdf.viewer.js", gv), ("build/minified/build/pdf.min.js", o1)] from by unfold liftMin; rw [h2])]
              rw [fsm_bind_ok (show writeF ("build/minified/" ++ "/build/pdf.worker.min.js") o2 [("build/minified/build/pdf.js", c1), ("build/minified/build/pdf.worker.js", c2), ("build/minified/build/pdf.sandbox.js", c3), ("build/minified/image_decoders/pdf.image_decoders.js", c4), ("build/minified/web/viewer.js", c5), ("build/minified/web/debugger.js", c6), ("build/minified/web/pdf.viewer.js", gv), ("build/minified/build/pdf.min.js", o1)] = .ok () [("build/minified/build/pdf.js", c1), ("build/minified/build/pdf.worker.js", c2), ("build/minified/build/pdf.sandbox.js", c3), ("build/minified/image_decoders/pdf.image_decoders.js", c4), ("build/minified/web/viewer.js", c5), ("build/minified/web/debugger.js", c6), ("build/minified/web/pdf.viewer.js", gv), ("build/minified/build/pdf.min.js", o1), ("build/minified/build/pdf.worker.min.js", o2)] from rfl)]
              rw [fsm_bind_ok (show liftMin (m.minifyOne c3) [("build/minified/build/pdf.js", c1), ("build/minified/build/pdf.worker.js", c2), ("build/minified/build/pdf.sandbox.js", c3), ("build/minified/image_decoders/pdf.image_decoders.js", c4), ("build/minified/web/viewer.js", c5), ("build/minified/web/debugger.js", c6), ("build/minified/web/pdf.viewer.js", gv), ("build/minified/build/pdf.min.js", o1), ("build/minified/build/pdf.worker.min.js", o2)] = .ok o3 [("build/minified/build/pdf.js", c1), ("build/minified/build/pdf.worker.js", c2), ("build/minified/build/pdf.sandbox.js", c3), ("build/minified/image_decoders/pdf.image_decoders.js", c4), ("build/minified/web/viewer.js", c5), ("build/minified/web/debugger.js", c6), ("build/minified/web/pdf.viewer.js", gv), ("build/minified/build/pdf.min.js", o1), ("build/minified/build/pdf.worker.min.js", o2)] from by unfold liftMin; rw [h3])]
              rw [fsm_bind_ok (show writeF ("build/minified/" ++ "/build/pdf.sandbox.min.js") o3 [("build/minified/build/pdf.js", c1), ("build/minified/build/pdf.worker.js", c2), ("build/minified/build/pdf.sandbox.js", c3), ("build/minified/image_decoders/pdf.image_decoders.js", c4), ("build/minified/web/viewer.js", c5), ("build/minified/web/debugger.js", c6), ("build/minified/web/pdf.viewer.js", gv), ("build/minified/build/pdf.min.js", o1), ("build/minified/build/pdf.worker.min.js", o2)] = .ok () [("build/minified/build/pdf.js", c1), ("build/minified/build/pdf.worker.js", c2), ("build/minified/build/pdf.sandbox.js", c3), ("build/minified/image_decoders/pdf.image_decoders.js", c4), ("build/minified/web/viewer.js", c5), ("build/minified/web/debugger.js", c6), ("build/minified/web/pdf.viewer.js", gv), ("build/minified/build/pdf.min.js", o1), ("build/minified/build/pdf.worker.min.js", o2), ("build/minified/build/pdf.sandbox.min.js", o3)] from rfl)]
              rw [fsm_bind_error (show liftMin (m.minifyOne c4) [("build/minified/build/pdf.js", c1), ("build/minified/build/pdf.worker.js", c2), ("build/minified/build/pdf.sandbox.js", c3), ("build/minified/image_decoders/pdf.image_decoders.js", c4), ("build/minified/web/viewer.js", c5), ("build/minified/web/debugger.js", c6), ("build/minified/web/pdf.viewer.js", gv), ("build/minified/build/pdf.min.js", o1), ("build/minified/build/pdf.worker.min.js", o2), ("build/minified/build/pdf.sandbox.min.js", o3)] = .error .minifyFailed [("build/minified/build/pdf.js", c1), ("build/minified/build/pdf.worker.js", c2), ("build/minified/build/pdf.sandbox.js", c3), ("build/minified/image_decoders/pdf.image_decoders.js", c4), ("build/minified/web/viewer.js", c5), ("build/minified/web/debugger.js", c6), ("build/minified/web/pdf.viewer.js", gv), ("build/minified/build/pdf.min.js", o1), ("build/minified/build/pdf.worker.min.js", o2), ("build/minified/build/pdf.sandbox.min.js", o3)] from by unfold liftMin; rw [h4])]
            rw [hrun] at h
            injection h with herr hfs
            subst hfs
            exact ⟨rfl, rfl, rfl, rfl, rfl, rfl⟩
          | ok o4 =>
            have hrun : parseMinified m "build/minified/" (minFS c1 c2 c3 c4 c5 c6) =
                .ok () [("build/minified/image_decoders/pdf.image_decoders.js", o4), ("build/minified/web/pdf.viewer.js", gv), ("build/minified/build/pdf.js", o1), ("build/minified/build/pdf.worker.js", o2), ("build/minified/build/pdf.sandbox.js", o3)] := by
              unfold parseMinified
              rw [fsm_bind_ok (show readF ("build/minified/" ++ "/build/pdf.js") (minFS c1 c2 c3 c4 c5 c6) = .ok c1 [("build/minified/build/pdf.js", c1), ("build/minified/build/pdf.worker.js", c2), ("build/minified/build/pdf.sandbox.js", c3), ("build/minified/image_decoders/pdf.image_decoders.js", c4), ("build/minified/web/viewer.js", c5), ("build/minified/web/debugger.js", c6)] from rfl)]
              rw [fsm_bind_ok (show readF ("build/minified/" ++ "/build/pdf.worker.js") [("build/minified/build/pdf.js", c1), ("build/minified/build/pdf.worker.js", c2), ("build/minified/build/pdf.sandbox.js", c3), ("build/minified/image_decoders/pdf.image_decoders.js", c4), ("build/minified/web/viewer.js", c5), ("build/minified/web/debugger.js", c6)] = .ok c2 [("build/minified/build/pdf.js", c1), ("build/minified/build/pdf.worker.js", c2), ("build/minified/build/pdf.sandbox.js", c3), ("build/minified/image_decoders/pdf.image_decoders.js", c4), ("build/minified/web/viewer.js", c5), ("build/minified/web/debugger.js", c6)] from rfl)]
              rw [fsm_bind_ok (show readF ("build/minified/" ++ "/build/pdf.sandbox.js") [("build/minified/build/pdf.js", c1), ("build/minified/build/pdf.worker.js", c2), ("build/minified/build/pdf.sandbox.js", c3), ("build/minified/image_decoders/pdf.image_decoders.js", c4), ("build/minified/web/viewer.js", c5), ("build/minified/web/debugger.js", c6)] = .ok c3 [("build/minified/build/pdf.js", c1), ("build/minified/build/pdf.worker.js", c2), ("build/minified/build/pdf.sandbox.js", c3), ("build/minified/image_decoders/pdf.image_decoders.js", c4), ("build/minified/web/viewer.js", c5), ("build/minified/web/debugger.js", c6)] from rfl)]
              rw [fsm_bind_ok (show readF ("build/minified/" ++ "/image_decoders/pdf.image_decoders.js") [("build/minified/build/pdf.js", c1), ("build/minified/build/pdf.worker.js", c2), ("build/minified/build/pdf.sandbox.js", c3), ("build/minified/image_decoders/pdf.image_decoders.js", c4), ("build/minified/web/viewer.js", c5), ("build/minified/web/debugger.js", c6)] = .ok c4 [("build/minified/build/pdf.js", c1), ("build/minified/build/pdf.worker.js", c2), ("build/minified/build/pdf.sandbox.js", c3), ("build/minified/image_decoders/pdf.image_decoders.js", c4), ("build/minified/web/viewer.js", c5), ("build/minified/web/debugger.js", c6)] from rfl)]
              rw [fsm_bind_ok (show readF ("build/minified/" ++ "/web/viewer.js") [("build/minified/build/pdf.js", c1), ("build/minified/build/pdf.worker.js", c2), ("build/minified/build/pdf.sandbox.js", c3), ("build/minified/image_decoders/pdf.image_decoders.js", c4), ("build/minified/web/viewer.js", c5), ("build/minified/web/debugger.js", c6)] = .ok c5 [("build/minified/build/pdf.js", c1), ("build/minified/build/pdf.worker.js", c2), ("build/minified/build/pdf.sandbox.js", c3), ("build/minified/image_decoders/pdf.image_decoders.js", c4), ("build/minified/web/viewer.js", c5), ("build/minified/web/debugger.js", c6)] from rfl)]
              rw [fsm_bind_ok (show liftMin (m.minifyGroup [("pdf.js", c1), ("viewer.js", c5)]) [("build/minified/build/pdf.js", c1), ("build/minified/build/pdf.worker.js", c2), ("build/minified/build/pdf.sandbox.js", c3), ("build/minified/image_decoders/pdf.image_decoders.js", c4), ("build/minified/web/viewer.js", c5), ("build/minified/web/debugger.js", c6)] = .ok gv [("build/minified/build/pdf.js", c1), ("build/minified/build/pdf.worker.js", c2), ("build/minified/build/pdf.sandbox.js", c3), ("build/minified/image_decoders/pdf.image_decoders.js", c4), ("build/minified/web/viewer.js", c5), ("build/minified/web/debugger.js", c6)] from by unfold liftMin; rw [hg])]
              rw [fsm_bind_ok (show writeF ("build/minified/" ++ "/web/pdf.viewer.js") gv [("build/minified/build/pdf.js", c1), ("build/minified/build/pdf.worker.js", c2), ("build/minified/build/pdf.sandbox.js", c3), ("build/minified/image_decoders/pdf.image_decoders.js", c4), ("build/minified/web/viewer.js", c5), ("build/minified/web/debugger.js", c6)] = .ok () [("build/minified/build/pdf.js", c1), ("build/minified/build/pdf.worker.js", c2), ("build/minified/build/pdf.sandbox.js", c3), ("build/minified/image_decoders/pdf.image_decoders.js", c4), ("build/minified/web/viewer.js", c5), ("build/minified/web/debugger.js", c6), ("build/minified/web/pdf.viewer.js", gv)] from rfl)]
              rw [fsm_bind_ok (show liftMin (m.minifyOne c1) [("build/minified/build/pdf.js", c1), ("build/minified/build/pdf.worker.js", c2), ("build/minified/build/pdf.sandbox.js", c3), ("build/minified/image_decoders/pdf.image_decoders.js", c4), ("build/minified/web/viewer.js", c5), ("build/minified/web/debugger.js", c6), ("build/minified/web/pdf.viewer.js", gv)] = .ok o1 [("build/minified/build/pdf.js", c1), ("build/minified/build/pdf.worker.js", c2), ("build/minified/build/pdf.sandbox.js", c3), ("build/minified/image_decoders/pdf.image_decoders.js", c4), ("build/minified/web/viewer.js", c5), ("build/minified/web/debugger.js", c6), ("build/minified/web/pdf.viewer.js", gv)] from by unfold liftMin; rw [h1])]
              rw [fsm_bind_ok (show writeF ("build/minified/" ++ "/build/pdf.min.js") o1 [("build/minified/build/pdf.js", c1), ("build/minified/build/pdf.worker.js", c2), ("build/minified/build/pdf.sandbox.js", c3), ("build/minified/image_decoders/pdf.image_decoders.js", c4), ("build/minified/web/viewer.js", c5), ("build/minified/web/debugger.js", c6), ("build/minified/web/pdf.viewer.js", gv)] = .ok () [("build/minified/build/pdf.js", c1), ("build/minified/build/pdf.worker.js", c2), ("build/minified/build/pdf.sandbox.js", c3), ("build/minified/image_decoders/pdf.image_decoders.js", c4), ("build/minified/web/viewer.js", c5), ("build/minified/web/debugger.js", c6), ("build/minified/web/pdf.viewer.js", gv), ("build/minified/build/pdf.min.js", o1)] from rfl)]
              rw [fsm_bind_ok (show liftMin (m.minifyOne c2) [("build/minified/build/pdf.js", c1), ("build/minified/build/pdf.worker.js", c2), ("build/minified/build/pdf.sandbox.js", c3), ("build/minified/image_decoders/pdf.image_decoders.js", c4), ("build/minified/web/viewer.js", c5), ("build/minified/web/debugger.js", c6), ("build/minified/web/pdf.viewer.js", gv), ("build/minified/build/pdf.min.js", o1)] = .ok o2 [("build/minified/build/pdf.js", c1), ("build/minified/build/pdf.worker.js", c2), ("build/minified/build/pdf.sandbox.js", c3), ("build/minified/image_decoders/pdf.image_decoders.js", c4), ("build/minified/web/viewer.js", c5), ("build/minified/web/debugger.js", c6), ("build/minified/web/pdf.viewer.js", gv), ("build/minified/build/pdf.min.js", o1)] from by unfold liftMin; rw [h2])]
              rw [fsm_bind_ok (show writeF ("build/minified/" ++ "/build/pdf.worker.min.js") o2 [("build/minified/build/pdf.js", c1), ("build/minified/build/pdf.worker.js", c2), ("build/minified/build/pdf.sandbox.js", c3), ("build/minified/image_decoders/pdf.image_decoders.js", c4), ("build/minified/web/viewer.js", c5), ("build/minified/web/debugger.js", c6), ("build/minified/web/pdf.viewer.js", gv), ("build/minified/build/pdf.min.js", o1)] = .ok () [("build/minified/build/pdf.js", c1), ("build/minified/build/pdf.worker.js", c2), ("build/minified/build/pdf.sandbox.js", c3), ("build/minified/image_decoders/pdf.image_decoders.js", c4), ("build/minified/web/viewer.js", c5), ("build/minified/web/debugger.js", c6), ("build/minified/web/pdf.viewer.js", gv), ("build/minified/build/pdf.min.js", o1), ("build/minified/build/pdf.worker.min.js", o2)] from rfl)]
              rw [fsm_bind_ok (show liftMin (m.minifyOne c3) [("build/minified/build/pdf.js", c1), ("build/minified/build/pdf.worker.js", c2), ("build/minified/build/pdf.sandbox.js", c3), ("build/minified/image_decoders/pdf.image_decoders.js", c4), ("build/minified/web/viewer.js", c5), ("build/minified/web/debugger.js", c6), ("build/minified/web/pdf.viewer.js", gv), ("build/minified/build/pdf.min.js", o1), ("build/minified/build/pdf.worker.min.js", o2)] = .ok o3 [("build/minified/build/pdf.js", c1), ("build/minified/build/pdf.worker.js", c2), ("build/minified/build/pdf.sandbox.js", c3), ("build/minified/image_decoders/pdf.image_decoders.js", c4), ("build/minified/web/viewer.js", c5), ("build/minified/web/debugger.js", c6), ("build/minified/web/pdf.viewer.js", gv), ("build/minified/build/pdf.min.js", o1), ("build/minified/build/pdf.worker.min.js", o2)] from by unfold liftMin; rw [h3])]
              rw [fsm_bind_ok (show writeF ("build/minified/" ++ "/build/pdf.sandbox.min.js") o3 [("build/minified/build/pdf.js", c1), ("build/minified/build/pdf.worker.js", c2), ("build/minified/build/pdf.sandbox.js", c3), ("build/minified/image_decoders/pdf.image_decoders.js", c4), ("build/minified/web/viewer.js", c5), ("build/minified/web/debugger.js", c6), ("build/minified/web/pdf.viewer.js", gv), ("build/minified/build/pdf.min.js", o1), ("build/minified/build/pdf.worker.min.js", o2)] = .ok () [("build/minified/build/pdf.js", c1), ("build/minified/build/pdf.worker.js", c2), ("build/minified/build/pdf.sandbox.js", c3), ("build/minified/image_decoders/pdf.image_decoders.js", c4), ("build/minified/web/viewer.js", c5), ("build/minified/web/debugger.js", c6), ("build/minified/web/pdf.viewer.js", gv), ("build/minified/build/pdf.min.js", o1), ("build/minified/build/pdf.worker.min.js", o2), ("build/minified/build/pdf.sandbox.min.js", o3)] from rfl)]
              rw [fsm_bind_ok (show liftMin (m.minifyOne c4) [("build/minified/build/pdf.js", c1), ("build/minified/build/pdf.worker.js", c2), ("build/minified/build/pdf.sandbox.js", c3), ("build/minified/image_decoders/pdf.image_decoders.js", c4), ("build/minified/web/viewer.js", c5), ("build/minified/web/debugger.js", c6), ("build/minified/web/pdf.viewer.js", gv), ("build/minified/build/pdf.min.js", o1), ("build/minified/build/pdf.worker.min.js", o2), ("build/minified/build/pdf.sandbox.min.js", o3)] = .ok o4 [("build/minified/build/pdf.js", c1), ("build/minified/build/pdf.worker.js", c2), ("build/minified/build/pdf.sandbox.js", c3), ("build/minified/image_decoders/pdf.image_decoders.js", c4), ("build/minified/web/viewer.js", c5), ("build/minified/web/debugger.js", c6), ("build/minified/web/pdf.viewer.js", gv), ("build/minified/build/pdf.min.js", o1), ("build/minified/build/pdf.worker.min.js", o2), ("build/minified/build/pdf.sandbox.min.js", o3)] from by unfold liftMin; rw [h4])]
              rw [fsm_bind_ok (show writeF ("build/minified/" ++ "image_decoders/pdf.image_decoders.min.js") o4 [("build/minified/build/pdf.js", c1), ("build/minified/build/pdf.worker.js", c2), ("build/minified/build/pdf.sandbox.js", c3), ("build/minified/image_decoders/pdf.image_decoders.js", c4), ("build/minified/web/viewer.js", c5), ("build/minified/web/debugger.js", c6), ("build/minified/web/pdf.viewer.js", gv), ("build/minified/build/pdf.min.js", o1), ("build/minified/build/pdf.worker.min.js", o2), ("build/minified/build/pdf.sandbox.min.js", o3)] = .ok () [("build/minified/build/pdf.js", c1), ("build/minified/build/pdf.worker.js", c2), ("build/minified/build/pdf.sandbox.js", c3), ("build/minified/image_decoders/pdf.image_decoders.js", c4), ("build/minified/web/viewer.js", c5), ("build/minified/web/debugger.js", c6), ("build/minified/web/pdf.viewer.js", gv), ("build/minified/build/pdf.min.js", o1), ("build/minified/build/pdf.worker.min.js", o2), ("build/minified/build/pdf.sandbox.min.js", o3), ("build/minified/image_decoders/pdf.image_decoders.min.js", o4)] from rfl)]
              rw [fsm_bind_ok (show unlinkF ("build/minified/" ++ "/web/viewer.js") [("build/minified/build/pdf.js", c1), ("build/minified/build/pdf.worker.js", c2), ("build/minified/build/pdf.sandbox.js", c3), ("build/minified/image_decoders/pdf.image_decoders.js", c4), ("build/minified/web/viewer.js", c5), ("build/minified/web/debugger.js", c6), ("build/minified/web/pdf.viewer.js", gv), ("build/minified/build/pdf.min.js", o1), ("build/minified/build/pdf.worker.min.js", o2), ("build/minified/build/pdf.sandbox.min.js", o3), ("build/minified/image_decoders/pdf.image_decoders.min.js", o4)] = .ok () [("build/minified/build/pdf.js", c1), ("build/minified/build/pdf.worker.js", c2), ("build/minified/build/pdf.sandbox.js", c3), ("build/minified/image_decoders/pdf.image_decoders.js", c4), ("build/minified/web/debugger.js", c6), ("build/minified/web/pdf.viewer.js", gv), ("build/minified/build/pdf.min.js", o1), ("build/minified/build/pdf.worker.min.js", o2), ("build/minified/build/pdf.sandbox.min.js", o3), ("build/minified/image_decoders/pdf.image_decoders.min.js", o4)] from rfl)]
              rw [fsm_bind_ok (show unlinkF ("build/minified/" ++ "/web/debugger.js") [("build/minified/build/pdf.js", c1), ("build/minified/build/pdf.worker.js", c2), ("build/minified/build/pdf.sandbox.js", c3), ("build/minified/image_decoders/pdf.image_decoders.js", c4), ("build/minified/web/debugger.js", c6), ("build/minified/web/pdf.viewer.js", gv), ("build/minified/build/pdf.min.js", o1), ("build/minified/build/pdf.worker.min.js", o2), ("build/minified/build/pdf.sandbox.min.js", o3), ("build/minified/image_decoders/pdf.image_decoders.min.js", o4)] = .ok () [("build/minified/build/pdf.js", c1), ("build/minified/build/pdf.worker.js", c2), ("build/minified/build/pdf.sandbox.js", c3), ("build/minified/image_decoders/pdf.image_decoders.js", c4), ("build/minified/web/pdf.viewer.js", gv), ("build/minified/build/pdf.min.js", o1), ("build/minified/build/pdf.worker.min.js", o2), ("build/minified/build/pdf.sandbox.min.js", o3), ("build/minified/image_decoders/pdf.image_decoders.min.js", o4)] from rfl)]
              rw [fsm_bind_ok (show unlinkF ("build/minified/" ++ "/build/pdf.js") [("build/minified/build/pdf.js", c1), ("build/minified/build/pdf.worker.js", c2), ("build/minified/build/pdf.sandbox.js", c3), ("build/minified/image_decoders/pdf.image_decoders.js", c4), ("build/minified/web/pdf.viewer.js", gv), ("build/minified/build/pdf.min.js", o1), ("build/minified/build/pdf.worker.min.js", o2), ("build/minified/build/pdf.sandbox.min.js", o3), ("build/minified/image_decoders/pdf.image_decoders.min.js", o4)] = .ok () [("build/minified/build/pdf.worker.js", c2), ("build/minified/build/pdf.sandbox.js", c3), ("build/minified/image_decoders/pdf.image_decoders.js", c4), ("build/minified/web/pdf.viewer.js", gv), ("build/minified/build/pdf.min.js", o1), ("build/minified/build/pdf.worker.min.js", o2), ("build/minified/build/pdf.sandbox.min.js", o3), ("build/minified/image_decoders/pdf.image_decoders.min.js", o4)] from rfl)]
              rw [fsm_bind_ok (show unlinkF ("build/minified/" ++ "/build/pdf.worker.js") [("build/minified/build/pdf.worker.js", c2), ("build/minified/build/pdf.sandbox.js", c3), ("build/minified/image_decoders/pdf.image_decoders.js", c4), ("build/minified/web/pdf.viewer.js", gv), ("build/minified/build/pdf.min.js", o1), ("build/minified/build/pdf.worker.min.js", o2), ("build/minified/build/pdf.sandbox.min.js", o3), ("build/minified/image_decoders/pdf.image_decoders.min.js", o4)] = .ok () [("build/minified/build/pdf.sandbox.js", c3), ("build/minified/image_decoders/pdf.image_decoders.js", c4), ("build/minified/web/pdf.viewer.js", gv), ("build/minified/build/pdf.min.js", o1), ("build/minified/build/pdf.worker.min.js", o2), ("build/minified/build/pdf.sandbox.min.js", o3), ("build/minified/image_decoders/pdf.image_decoders.min.js", o4)] from rfl)]
              rw [fsm_bind_ok (show unlinkF ("build/minified/" ++ "/build/pdf.sandbox.js") [("build/minified/build/pdf.sandbox.js", c3), ("build/minified/image_decoders/pdf.image_decoders.js", c4), ("build/minified/web/pdf.viewer.js", gv), ("build/minified/build/pdf.min.js", o1), ("build/minified/build/pdf.worker.min.js", o2), ("build/minified/build/pdf.sandbox.min.js", o3), ("build/minified/image_decoders/pdf.image_decoders.min.js", o4)] = .ok () [("build/minified/image_decoders/pdf.image_decoders.js", c4), ("build/minified/web/pdf.viewer.js", gv), ("build/minified/build/pdf.min.js", o1), ("build/minified/build/pdf.worker.min.js", o2), ("build/minified/build/pdf.sandbox.min.js", o3), ("build/minified/image_decoders/pdf.image_decoders.min.js", o4)] from rfl)]
              rw [fsm_bind_ok (show renameF ("build/minified/" ++ "/build/pdf.min.js") ("build/minified/" ++ "/build/pdf.js") [("build/minified/image_decoders/pdf.image_decoders.js", c4), ("build/minified/web/pdf.viewer.js", gv), ("build/minified/build/pdf.min.js", o1), ("build/minified/build/pdf.worker.min.js", o2), ("build/minified/build/pdf.sandbox.min.js", o3), ("build/minified/image_decoders/pdf.image_decoders.min.js", o4)] = .ok () [("build/minified/image_decoders/pdf.image_decoders.js", c4), ("build/minified/web/pdf.viewer.js", gv), ("build/minified/build/pdf.worker.min.js", o2), ("build/minified/build/pdf.sandbox.min.js", o3), ("build/minified/image_decoders/pdf.image_decoders.min.js", o4), ("build/minified/build/pdf.js", o1)] from rfl)]
              rw [fsm_bind_ok (show renameF ("build/minified/" ++ "/build/pdf.worker.min.js") ("build/minified/" ++ "/build/pdf.worker.js") [("build/minified/image_decoders/pdf.image_decoders.js", c4), ("build/minified/web/pdf.viewer.js", gv), ("build/minified/build/pdf.worker.min.js", o2), ("build/minified/build/pdf.sandbox.min.js", o3), ("build/minified/image_decoders/pdf.image_decoders.min.js", o4), ("build/minified/build/pdf.js", o1)] = .ok () [("build/minified/image_decoders/pdf.image_decoders.js", c4), ("build/minified/web/pdf.viewer.js", gv), ("build/minified/build/pdf.sandbox.min.js", o3), ("build/minified/image_decoders/pdf.image_decoders.min.js", o4), ("build/minified/build/pdf.js", o1), ("build/minified/build/pdf.worker.js", o2)] from rfl)]
              rw [fsm_bind_ok (show renameF ("build/minified/" ++ "/build/pdf.sandbox.min.js") ("build/minified/" ++ "/build/pdf.sandbox.js") [("build/minified/image_decoders/pdf.image_decoders.js", c4), ("build/minified/web/pdf.viewer.js", gv), ("build/minified/build/pdf.sandbox.min.js", o3), ("build/minified/image_decoders/pdf.image_decoders.min.js", o4), ("build/minified/build/pdf.js", o1), ("build/minified/build/pdf.worker.js", o2)] = .ok () [("build/minified/image_decoders/pdf.image_decoders.js", c4), ("build/minified/web/pdf.viewer.js", gv), ("build/minified/image_decoders/pdf.image_decoders.min.js", o4), ("build/minified/build/pdf.js", o1), ("build/minified/build/pdf.worker.js", o2), ("build/minified/build/pdf.sandbox.js", o3)] from rfl)]
              exact (show renameF ("build/minified/" ++ "/image_decoders/pdf.image_decoders.min.js") ("build/minified/" ++ "/image_decoders/pdf.image_decoders.js") [("build/minified/image_decoders/pdf.image_decoders.js", c4), ("build/minified/web/pdf.viewer.js", gv), ("build/minified/image_decoders/pdf.image_decoders.min.js", o4), ("build/minified/build/pdf.js", o1), ("build/minified/build/pdf.worker.js", o2), ("build/minified/build/pdf.sandbox.js", o3)] = .ok () [("build/minified/image_decoders/pdf.image_decoders.js", o4), ("build/minified/web/pdf.viewer.js", gv), ("build/minified/build/pdf.js", o1), ("build/minified/build/pdf.worker.js", o2), ("build/minified/build/pdf.sandbox.js", o3)] from rfl)
            rw [hrun] at h
            exact EStateM.Result.noConfusion h

theorem C6_minify_failure_preserves_originals_witness :
    parseMinified ⟨fun s => .ok s, fun _ => .error ()⟩ "build/minified/"
        (minFS "A" "B" "C" "D" "E" "F") =
      .error .minifyFailed (minFS "A" "B" "C" "D" "E" "F") ∧
    (fsRead (minFS "A" "B" "C" "D" "E" "F")
        "build/minified/build/pdf.js" = some "A" ∧
     fsRead (minFS "A" "B" "C" "D" "E" "F")
        "build/minified/build/pdf.worker.js" = some "B" ∧
     fsRead (minFS "A" "B" "C" "D" "E" "F")
        "build/minified/build/pdf.sandbox.js" = some "C" ∧
     fsRead (minFS "A" "B" "C" "D" "E" "F")
        "build/minified/image_decoders/pdf.image_decoders.js" = some "D" ∧
     fsRead (minFS "A" "B" "C" "D" "E" "F")
        "build/minified/web/viewer.js" = some "E" ∧
     fsRead (minFS "A" "B" "C" "D" "E" "F")
        "build/minified/web/debugger.js" = some "F") :=
  ⟨rfl,
   C6_minify_failure_preserves_originals "A" "B" "C" "D" "E" "F"
     ⟨fun s => .ok s, fun _ => .error ()⟩ .minifyFailed
     (minFS "A" "B" "C" "D" "E" "F") rfl⟩

theorem replaceAllF_congr (p r : List Char) :
    ∀ (f1 f2 : Nat) (s : List Char), s.length ≤ f1 → s.length ≤ f2 →
      replaceAllF p r f1 s = replaceAllF p r f2 s := by
  intro f1
  induction f1 with
  | zero =>
    intro f2 s h1 h2
    have hs : s = [] := List.eq_nil_of_length_eq_zero (Nat.le_zero.mp h1)
    subst hs
    cases f2 <;> rfl
  | succ n ih =>
    intro f2 s h1 h2
    cases s with
    | nil => cases f2 <;> rfl
    | cons c rest =>
      cases f2 with
      | zero => simp at h2
      | succ m =>
        simp only [replaceAllF]
        by_cases hp : p.isPrefixOf (c :: rest) ∧ p ≠ []
        · rw [if_pos hp, if_pos hp]
          congr 1
          apply ih
          · calc (rest.drop (p.length - 1)).length ≤ rest.length :=
                  by simp [List.length_drop]
              _ ≤ n := by simpa using h1
          · calc (rest.drop (p.length - 1)).length ≤ rest.length :=
                  by simp [List.length_drop]
              _ ≤ m := by simpa using h2
        · rw [if_neg hp, if_neg hp]
          congr 1
          apply ih
          · simpa using h1
          · simpa using h2

theorem replaceAll_cons_pos {p : List Char} (r : List Char) {c : Char}
    {rest : List Char} (h : p.isPrefixOf (c :: rest) ∧ p ≠ []) :
    replaceAll p r (c :: rest) =
      r ++ replaceAll p r (rest.drop (p.length - 1)) := by
  unfold replaceAll
  simp only [List.length_cons, replaceAllF, if_pos h]
  congr 1
  apply replaceAllF_congr
  · simp [List.length_drop]
  · exact le_rfl

theorem replaceAll_cons_neg {p : List Char} (r : List Char) {c : Char}
    {rest : List Char} (h : ¬ (p.isPrefixOf (c :: rest) ∧ p ≠ [])) :
    replaceAll p r (c :: rest) = c :: replaceAll p r rest := by
  unfold replaceAll
  simp only [List.length_cons, replaceAllF, if_neg h]

theorem parseF_congr (amd : List Char) :
    ∀ (f1 f2 : Nat) (s : List Char), s.length ≤ f1 → s.length ≤ f2 →
      parseF amd f1 s = parseF amd f2 s := by
  intro f1
  induction f1 with
  | zero =>
    intro f2 s h1 h2
    have hs : s = [] := List.eq_nil_of_length_eq_zero (Nat.le_zero.mp h1)
    subst hs
    cases f2 <;> rfl
  | succ n ih =>
    intro f2 s h1 h2
    cases s with
    | nil => cases f2 <;> rfl
    | cons c rest =>
      cases f2 with
      | zero => simp at h2
      | succ m =>
        simp only [parseF]
        by_cases h1p : wpPat.isPrefixOf (c :: rest)
        · rw [if_pos h1p, if_pos h1p]
          congr 1
          apply ih
          · calc (rest.drop (wpPat.length - 1)).length ≤ rest.length := by
                  simp [List.length_drop]
              _ ≤ n := by simpa using h1
          · calc (rest.drop (wpPat.length - 1)).length ≤ rest.length := by
                  simp [List.length_drop]
              _ ≤ m := by simpa using h2
        · rw [if_neg h1p, if_neg h1p]
          by_cases h2p : nwPat.isPrefixOf (c :: rest)
          · rw [if_pos h2p, if_pos h2p]
            congr 1
            apply ih
            · calc (rest.drop (nwPat.length - 1)).length ≤ rest.length := by
                    simp [List.length_drop]
                _ ≤ n := by simpa using h1
            · calc (rest.drop (nwPat.length - 1)).length ≤ rest.length := by
                    simp [List.length_drop]
                _ ≤ m := by simpa using h2
          · rw [if_neg h2p, if_neg h2p]
            by_cases h3p : (rootPat amd).isPrefixOf (c :: rest)
            · rw [if_pos h3p, if_pos h3p]
              congr 1
              apply ih
              · calc (rest.drop ((rootPat amd).length - 1)).length ≤
                      rest.length := by simp [List.length_drop]
                  _ ≤ n := by simpa using h1
              · calc (rest.drop ((rootPat amd).length - 1)).length ≤
                      rest.length := by simp [List.length_drop]
                  _ ≤ m := by simpa using h2
            · rw [if_neg h3p, if_neg h3p]
              congr 1
              apply ih
              · simpa using h1
              · simpa using h2

theorem parse_cons_wp {amd : List Char} {c : Char} {rest : List Char}
    (h : wpPat.isPrefixOf (c :: rest)) :
    parse amd (c :: rest) = .wp :: parse amd (rest.drop (wpPat.length - 1)) := by
  unfold parse
  simp only [List.length_cons, parseF, if_pos h]
  congr 1
  apply parseF_congr
  · simp [List.length_drop]
  · exact le_rfl

theorem parse_cons_nw {amd : List Char} {c : Char} {rest : List Char}
    (h1 : ¬ wpPat.isPrefixOf (c :: rest)) (h2 : nwPat.isPrefixOf (c :: rest)) :
    parse amd (c :: rest) = .nw :: parse amd (rest.drop (nwPat.length - 1)) := by
  unfold parse
  simp only [List.length_cons, parseF, if_neg h1, if_pos h2]
  congr 1
  apply parseF_congr
  · simp [List.length_drop]
  · exact le_rfl

theorem parse_cons_rt {amd : List Char} {c : Char} {rest : List Char}
    (h1 : ¬ wpPat.isPrefixOf (c :: rest)) (h2 : ¬ nwPat.isPrefixOf (c :: rest))
    (h3 : (rootPat amd).isPrefixOf (c :: rest)) :
    parse amd (c :: rest) =
      .rt :: parse amd (rest.drop ((rootPat amd).length - 1)) := by
  unfold parse
  simp only [List.length_cons, parseF, if_neg h1, if_neg h2, if_pos h3]
  congr 1
  apply parseF_congr
  · simp [List.length_drop]
  · exact le_rfl

theorem parse_cons_ch {amd : List Char} {c : Char} {rest : List Char}
    (h1 : ¬ wpPat.isPrefixOf (c :: rest)) (h2 : ¬ nwPat.isPrefixOf (c :: rest))
    (h3 : ¬ (rootPat amd).isPrefixOf (c :: rest)) :
    parse amd (c :: rest) = .ch c :: parse amd rest := by
  unfold parse
  simp only [List.length_cons, parseF, if_neg h1, if_neg h2, if_neg h3]

theorem overlapFreeF_congr (amd : List Char) :
    ∀ (f1 f2 : Nat) (s : List Char), s.length ≤ f1 → s.length ≤ f2 →
      overlapFreeF amd f1 s = overlapFreeF amd f2 s := by
  intro f1
  induction f1 with
  | zero =>
    intro f2 s h1 h2
    have hs : s = [] := List.eq_nil_of_length_eq_zero (Nat.le_zero.mp h1)
    subst hs
    cases f2 <;> rfl
  | succ n ih =>
    intro f2 s h1 h2
    cases s with
    | nil => cases f2 <;> rfl
    | cons c rest =>
      cases f2 with
      | zero => simp at h2
      | succ m =>
        simp only [overlapFreeF]
        by_cases h1p : wpPat.isPrefixOf (c :: rest)
        · rw [if_pos h1p, if_pos h1p]
          congr 1
          apply ih
          · calc (rest.drop (wpPat.length - 1)).length ≤ rest.length := by
                  simp [List.length_drop]
              _ ≤ n := by simpa using h1
          · calc (rest.drop (wpPat.length - 1)).length ≤ rest.length := by
                  simp [List.length_drop]
              _ ≤ m := by simpa using h2
        · rw [if_neg h1p, if_neg h1p]
          by_cases h2p : nwPat.isPrefixOf (c :: rest)
          · rw [if_pos h2p, if_pos h2p]
            congr 1
            apply ih
            · calc (rest.drop (nwPat.length - 1)).length ≤ rest.length := by
                    simp [List.length_drop]
                _ ≤ n := by simpa using h1
            · calc (rest.drop (nwPat.length - 1)).length ≤ rest.length := by
                    simp [List.length_drop]
                _ ≤ m := by simpa using h2
          · rw [if_neg h2p, if_neg h2p]
            by_cases h3p : (rootPat amd).isPrefixOf (c :: rest)
            · rw [if_pos h3p, if_pos h3p]
              congr 1
              apply ih
              · calc (rest.drop ((rootPat amd).length - 1)).length ≤
                      rest.length := by simp [List.length_drop]
                  _ ≤ n := by simpa using h1
              · calc (rest.drop ((rootPat amd).length - 1)).length ≤
                      rest.length := by simp [List.length_drop]
                  _ ≤ m := by simpa using h2
            · rw [if_neg h3p, if_neg h3p]
              apply ih
              · simpa using h1
              · simpa using h2

theorem overlapFree_cons_wp {amd : List Char} {c : Char} {rest : List Char}
    (h : wpPat.isPrefixOf (c :: rest)) :
    overlapFree amd (c :: rest) =
      (((List.range (wpPat.length - 1)).all
          (fun k => noPatAt amd (rest.drop k))) &&
        overlapFree amd (rest.drop (wpPat.length - 1))) := by
  unfold overlapFree
  simp only [List.length_cons, overlapFreeF, if_pos h]
  congr 1
  apply overlapFreeF_congr
  · simp [List.length_drop]
  · exact le_rfl

theorem overlapFree_cons_nw {amd : List Char} {c : Char} {rest : List Char}
    (h1 : ¬ wpPat.isPrefixOf (c :: rest)) (h2 : nwPat.isPrefixOf (c :: rest)) :
    overlapFree amd (c :: rest) =
      (((List.range (nwPat.length - 1)).all
          (fun k => noPatAt amd (rest.drop k))) &&
        overlapFree amd (rest.drop (nwPat.length - 1))) := by
  unfold overlapFree
  simp only [List.length_cons, overlapFreeF, if_neg h1, if_pos h2]
  congr 1
  apply overlapFreeF_congr
  · simp [List.length_drop]
  · exact le_rfl

theorem overlapFree_cons_rt {amd : List Char} {c : Char} {rest : List Char}
    (h1 : ¬ wpPat.isPrefixOf (c :: rest)) (h2 : ¬ nwPat.isPrefixOf (c :: rest))
    (h3 : (rootPat amd).isPrefixOf (c :: rest)) :
    overlapFree amd (c :: rest) =
      (((List.range ((rootPat amd).length - 1)).all
          (fun k => noPatAt amd (rest.drop k))) &&
        overlapFree amd (rest.drop ((rootPat amd).length - 1))) := by
  unfold overlapFree
  simp only [List.length_cons, overlapFreeF, if_neg h1, if_neg h2, if_pos h3]
  congr 1
  apply overlapFreeF_congr
  · simp [List.length_drop]
  · exact le_rfl

theorem overlapFree_cons_ch {amd : List Char} {c : Char} {rest : List Char}
    (h1 : ¬ wpPat.isPrefixOf (c :: rest)) (h2 : ¬ nwPat.isPrefixOf (c :: rest))
    (h3 : ¬ (rootPat amd).isPrefixOf (c :: rest)) :
    overlapFree amd (c :: rest) = overlapFree amd rest := by
  unfold overlapFree
  simp only [List.length_cons, overlapFreeF, if_neg h1, if_neg h2, if_neg h3]

theorem notContains_replaceAll {p : List Char} (r : List Char) :
    ∀ s : List Char, containsB p s = false → replaceAll p r s = s := by
  intro s
  induction s with
  | nil => intro _; rfl
  | cons c rest ih =>
    intro h
    simp only [containsB, Bool.or_eq_false_iff] at h
    have hneg : ¬ (p.isPrefixOf (c :: rest) ∧ p ≠ []) := by
      rw [h.1]
      simp
    rw [replaceAll_cons_neg r hneg]
    rw [ih h.2]

theorem take_of_isPrefix {p s : List Char} (h : p.isPrefixOf s = true) :
    s.take p.length = p :=
  (List.prefix_iff_eq_take.mp (List.isPrefixOf_iff_prefix.mp h)).symm

theorem append_drop_of_isPrefix {p s : List Char}
    (h : p.isPrefixOf s = true) : p ++ s.drop p.length = s := by
  obtain ⟨t, ht⟩ := List.isPrefixOf_iff_prefix.mp h
  subst ht
  rw [List.drop_left]

theorem drop_cons_of_pos {n : Nat} (hn : n ≠ 0) (c : Char)
    (rest : List Char) : (c :: rest).drop n = rest.drop (n - 1) := by
  cases n with
  | zero => exact absurd rfl hn
  | succ m => simp [List.drop_succ_cons]

theorem rootPat_head (amd : List Char) :
    rootPat amd =
      'r' :: ("oot[\"".toList ++ amd ++ "\"] = factory()".toList) := rfl

theorem rootPat_ne_nil (amd : List Char) : rootPat amd ≠ [] := by
  rw [rootPat_head]
  exact List.cons_ne_nil _ _

theorem mutex_wp_nw {s : List Char} (h1 : wpPat.isPrefixOf s = true)
    (h2 : nwPat.isPrefixOf s = true) : False := by
  have t1 : s.take wpPat.length = wpPat := take_of_isPrefix h1
  have t2 : s.take nwPat.length = nwPat := take_of_isPrefix h2
  have hmin : nwPat.take wpPat.length = wpPat := by
    rw [← t2, List.take_take,
      show min wpPat.length nwPat.length = wpPat.length from by decide]
    exact t1
  exact absurd hmin (by decide)

theorem mutex_wp_rt {amd s : List Char} (h1 : wpPat.isPrefixOf s = true)
    (h3 : (rootPat amd).isPrefixOf s = true) : False := by
  obtain ⟨t3, ht3⟩ := List.isPrefixOf_iff_prefix.mp h3
  rw [rootPat_head, List.cons_append] at ht3
  subst ht3
  simp [wpPat, List.isPrefixOf] at h1

theorem mutex_nw_rt {amd s : List Char} (h2 : nwPat.isPrefixOf s = true)
    (h3 : (rootPat amd).isPrefixOf s = true) : False := by
  obtain ⟨t3, ht3⟩ := List.isPrefixOf_iff_prefix.mp h3
  rw [rootPat_head, List.cons_append] at ht3
  subst ht3
  simp [nwPat, List.isPrefixOf] at h2

theorem patOf_mutex {amd : List Char} {i j : PatId} (hij : i ≠ j)
    {s : List Char} (hi : (patOf amd i).isPrefixOf s = true)
    (hj : (patOf amd j).isPrefixOf s = true) : False := by
  cases i <;> cases j <;>
    first
      | exact absurd rfl hij
      | exact mutex_wp_nw hi hj
      | exact mutex_wp_nw hj hi
      | exact mutex_wp_rt hi hj
      | exact mutex_wp_rt hj hi
      | exact mutex_nw_rt hi hj
      | exact mutex_nw_rt hj hi

theorem noPatAt_spec {amd t : List Char} (h : noPatAt amd t = true) :
    ∀ j : PatId, (patOf amd j).isPrefixOf t = false := by
  intro j
  unfold noPatAt at h
  simp only [Bool.not_eq_true', Bool.or_eq_false_iff] at h
  cases j with
  | wp => exact h.1.1
  | nw => exact h.1.2
  | rt => exact h.2

theorem replaceAll_chunk (p r : List Char) :
    ∀ (n : Nat) (s : List Char),
      (∀ k, k < n → p.isPrefixOf (s.drop k) = false) →
      replaceAll p r s = s.take n ++ replaceAll p r (s.drop n) := by
  intro n
  induction n with
  | zero => intro s _; simp
  | succ m ih =>
    intro s h
    cases s with
    | nil => simp [replaceAll, replaceAllF]
    | cons c rest =>
      have h0 : p.isPrefixOf (c :: rest) = false := by
        simpa using h 0 (Nat.succ_pos m)
      have hneg : ¬ (p.isPrefixOf (c :: rest) ∧ p ≠ []) := by
        rw [h0]
        simp
      rw [replaceAll_cons_neg r hneg]
      have hrest : ∀ k, k < m → p.isPrefixOf (rest.drop k) = false := by
        intro k hk
        simpa using h (k + 1) (Nat.succ_lt_succ hk)
      rw [ih rest hrest]
      simp [List.take_succ_cons, List.drop_succ_cons]

theorem render_append (amd : List Char) (t1 t2 : List Tok) :
    render amd (t1 ++ t2) = render amd t1 ++ render amd t2 := by
  induction t1 with
  | nil => rfl
  | cons t ts ih => simp [render, ih, List.append_assoc]

theorem render_map_ch (amd : List Char) (l : List Char) :
    render amd (l.map Tok.ch) = l := by
  induction l with
  | nil => rfl
  | cons c cs ih => simp [render, tokChars, ih]

theorem tokOf_ne_ch (i : PatId) (c : Char) : Tok.ch c ≠ tokOf i := by
  cases i <;> simp [tokOf]

theorem expTok_ne {amd js : List Char} {i : PatId} {t : Tok}
    (h : t ≠ tokOf i) : expTok amd js i t = [t] := by
  simp [expTok, h]

theorem expandP_append (amd js : List Char) (i : PatId) (t1 t2 : List Tok) :
    expandP amd js i (t1 ++ t2) =
      expandP amd js i t1 ++ expandP amd js i t2 := by
  induction t1 with
  | nil => rfl
  | cons t ts ih => simp [expandP, ih, List.append_assoc]

theorem expandP_single (amd js : List Char) (i : PatId) (t : Tok) :
    expandP amd js i [t] = expTok amd js i t := by
  simp [expandP]

theorem expandP_map_ch (amd js : List Char) (i : PatId) (l : List Char) :
    expandP amd js i (l.map Tok.ch) = l.map Tok.ch := by
  induction l with
  | nil => rfl
  | cons c cs ih => simp [expandP, expTok_ne (tokOf_ne_ch i c), ih]

theorem tokOf_injective {i j : PatId} (h : tokOf i = tokOf j) : i = j := by
  cases i <;> cases j <;> simp_all [tokOf]

theorem expandP_expTok_comm (amd js : List Char) {i j : PatId} (hij : i ≠ j)
    (t : Tok) :
    expandP amd js i (expTok amd js j t) =
      expandP amd js j (expTok amd js i t) := by
  by_cases hj : t = tokOf j
  · subst hj
    have hi : tokOf j ≠ tokOf i := fun hc =>
      hij (tokOf_injective hc).symm
    rw [expTok_ne hi]
    rw [show expTok amd js j (tokOf j) = (repOf amd js j).map Tok.ch from by
      simp [expTok]]
    rw [expandP_map_ch, expandP_single]
    rw [show expTok amd js j (tokOf j) = (repOf amd js j).map Tok.ch from by
      simp [expTok]]
  · by_cases hi : t = tokOf i
    · subst hi
      have hj2 : tokOf i ≠ tokOf j := fun hc => hij (tokOf_injective hc)
      rw [expTok_ne hj2]
      rw [show expTok amd js i (tokOf i) = (repOf amd js i).map Tok.ch from by
        simp [expTok]]
      rw [expandP_map_ch, expandP_single]
      rw [show expTok amd js i (tokOf i) = (repOf amd js i).map Tok.ch from by
        simp [expTok]]
    · rw [expTok_ne hi, expTok_ne hj, expandP_single, expandP_single,
        expTok_ne hi, expTok_ne hj]

theorem expandP_comm (amd js : List Char) (i j : PatId) (T : List Tok) :
    expandP amd js i (expandP amd js j T) =
      expandP amd js j (expandP amd js i T) := by
  by_cases hij : i = j
  · subst hij; rfl
  · induction T with
    | nil => rfl
    | cons t ts ih =>
      simp only [expandP, expandP_append]
      rw [ih, expandP_expTok_comm amd js hij t]

theorem patOf_ne_nil (amd : List Char) (i : PatId) : patOf amd i ≠ [] := by
  cases i with
  | wp => exact (show wpPat ≠ [] by decide)
  | nw => exact (show nwPat ≠ [] by decide)
  | rt => exact rootPat_ne_nil amd

theorem branch_aligned {amd js : List Char} {c : Char} {rest : List Char}
    (i : PatId) (hpre : (patOf amd i).isPrefixOf (c :: rest))
    (hrecEq : applyP amd js i (rest.drop ((patOf amd i).length - 1)) =
      render amd (expandP amd js i
        (parse amd (rest.drop ((patOf amd i).length - 1)))))
    (hparse : parse amd (c :: rest) =
      tokOf i :: parse amd (rest.drop ((patOf amd i).length - 1))) :
    applyP amd js i (c :: rest) =
      render amd (expandP amd js i (parse amd (c :: rest))) := by
  rw [hparse]
  rw [show applyP amd js i (c :: rest) = repOf amd js i ++
      applyP amd js i (rest.drop ((patOf amd i).length - 1)) from
    replaceAll_cons_pos (repOf amd js i) ⟨hpre, patOf_ne_nil amd i⟩]
  rw [hrecEq]
  rw [show expandP amd js i (tokOf i ::
      parse amd (rest.drop ((patOf amd i).length - 1))) =
      (repOf amd js i).map Tok.ch ++ expandP amd js i
        (parse amd (rest.drop ((patOf amd i).length - 1))) from by
    simp [expandP, expTok]]
  rw [render_append, render_map_ch]

theorem branch_cross {amd js : List Char} {c : Char} {rest : List Char}
    {i j : PatId} (hij : i ≠ j)
    (hpre : (patOf amd j).isPrefixOf (c :: rest))
    (hall : ((List.range ((patOf amd j).length - 1)).all
      (fun k => noPatAt amd (rest.drop k))) = true)
    (hrecEq : applyP amd js i (rest.drop ((patOf amd j).length - 1)) =
      render amd (expandP amd js i
        (parse amd (rest.drop ((patOf amd j).length - 1)))))
    (hparse : parse amd (c :: rest) =
      tokOf j :: parse amd (rest.drop ((patOf amd j).length - 1))) :
    applyP amd js i (c :: rest) =
      render amd (expandP amd js i (parse amd (c :: rest))) := by
  have hlenj : (patOf amd j).length ≠ 0 := fun hl =>
    patOf_ne_nil amd j (List.length_eq_zero.mp hl)
  have hchunk : ∀ k, k < (patOf amd j).length →
      (patOf amd i).isPrefixOf ((c :: rest).drop k) = false := by
    intro k hk
    cases k with
    | zero =>
      simp only [List.drop_zero]
      cases hb : (patOf amd i).isPrefixOf (c :: rest) with
      | false => rfl
      | true => exact (patOf_mutex hij hb hpre).elim
    | succ m =>
      have hm : m < (patOf amd j).length - 1 := by omega
      have hnp := List.all_eq_true.mp hall m (List.mem_range.mpr hm)
      have := noPatAt_spec hnp i
      simpa [List.drop_succ_cons] using this
  rw [hparse]
  rw [show applyP amd js i (c :: rest) =
      (c :: rest).take (patOf amd j).length ++
        applyP amd js i ((c :: rest).drop (patOf amd j).length) from
    replaceAll_chunk (patOf amd i) (repOf amd js i) (patOf amd j).length
      (c :: rest) hchunk]
  rw [take_of_isPrefix hpre, drop_cons_of_pos hlenj c rest, hrecEq]
  have htok : tokOf j ≠ tokOf i := fun hc => hij (tokOf_injective hc).symm
  rw [show expandP amd js i (tokOf j ::
      parse amd (rest.drop ((patOf amd j).length - 1))) =
      tokOf j :: expandP amd js i
        (parse amd (rest.drop ((patOf amd j).length - 1))) from by
    simp [expandP, expTok_ne htok]]
  rw [show render amd (tokOf j :: expandP amd js i
      (parse amd (rest.drop ((patOf amd j).length - 1)))) =
      tokChars amd (tokOf j) ++ render amd (expandP amd js i
        (parse amd (rest.drop ((patOf amd j).length - 1)))) from by
    simp [render]]
  rw [show tokChars amd (tokOf j) = patOf amd j from by
    cases j <;> rfl]

theorem applyP_eq_render_expandP (amd js : List Char) (i : PatId) :
    ∀ s : List Char, overlapFree amd s = true →
      applyP amd js i s = render amd (expandP amd js i (parse amd s)) := by
  suffices H : ∀ n, ∀ s : List Char, s.length ≤ n →
      overlapFree amd s = true →
      applyP amd js i s = render amd (expandP amd js i (parse amd s)) by
    exact fun s h => H s.length s le_rfl h
  intro n
  induction n with
  | zero =>
    intro s hlen _
    have hs : s = [] := List.eq_nil_of_length_eq_zero (Nat.le_zero.mp hlen)
    subst hs
    rfl
  | succ n ih =>
    intro s hlen hov
    cases s with
    | nil => rfl
    | cons c rest =>
      have hrestlen : rest.length ≤ n := by simpa using hlen
      by_cases hwp : wpPat.isPrefixOf (c :: rest)
      · rw [overlapFree_cons_wp hwp] at hov
        rw [Bool.and_eq_true] at hov
        obtain ⟨hall, hrec⟩ := hov
        have hrecEq := ih (rest.drop (wpPat.length - 1))
          (le_trans (by simp [List.length_drop]) hrestlen) hrec
        by_cases hi : i = PatId.wp
        · subst hi
          exact branch_aligned PatId.wp hwp hrecEq (parse_cons_wp hwp)
        · exact branch_cross (j := PatId.wp) hi hwp hall hrecEq
            (parse_cons_wp hwp)
      · by_cases hnw : nwPat.isPrefixOf (c :: rest)
        · rw [overlapFree_cons_nw hwp hnw] at hov
          rw [Bool.and_eq_true] at hov
          obtain ⟨hall, hrec⟩ := hov
          have hrecEq := ih (rest.drop (nwPat.length - 1))
            (le_trans (by simp [List.length_drop]) hrestlen) hrec
          by_cases hi : i = PatId.nw
          · subst hi
            exact branch_aligned PatId.nw hnw hrecEq (parse_cons_nw hwp hnw)
          · exact branch_cross (j := PatId.nw) hi hnw hall hrecEq
              (parse_cons_nw hwp hnw)
        · by_cases hrt : (rootPat amd).isPrefixOf (c :: rest)
          · rw [overlapFree_cons_rt hwp hnw hrt] at hov
            rw [Bool.and_eq_true] at hov
            obtain ⟨hall, hrec⟩ := hov
            have hrecEq := ih (rest.drop ((rootPat amd).length - 1))
              (le_trans (by simp [List.length_drop]) hrestlen) hrec
            by_cases hi : i = PatId.rt
            · subst hi
              exact branch_aligned PatId.rt hrt hrecEq
                (parse_cons_rt hwp hnw hrt)
            · exact branch_cross (j := PatId.rt) hi hrt hall hrecEq
                (parse_cons_rt hwp hnw hrt)
          · rw [overlapFree_cons_ch hwp hnw hrt] at hov
            have hrecEq := ih rest hrestlen hov
            rw [parse_cons_ch hwp hnw hrt]
            have hno : ¬ ((patOf amd i).isPrefixOf (c :: rest) ∧
                patOf amd i ≠ []) := by
              intro hc
              cases i with
              | wp => exact hwp hc.1
              | nw => exact hnw hc.1
              | rt => exact hrt hc.1
            rw [show applyP amd js i (c :: rest) =
                c :: applyP amd js i rest from
              replaceAll_cons_neg (repOf amd js i) hno]
            rw [hrecEq]
            rw [show expandP amd js i (Tok.ch c :: parse amd rest) =
                Tok.ch c :: expandP amd js i (parse amd rest) from by
              simp [expandP, expTok_ne (tokOf_ne_ch i c)]]
            rw [show render amd (Tok.ch c ::
                expandP amd js i (parse amd rest)) =
                c :: render amd (expandP amd js i (parse amd rest)) from by
              simp [render, tokChars]]

/-- C2: the claim as stated is false: `replaceWebpackRequire` is not
idempotent. On the text `__webpack_require__webpack_require__` the first
pass consumes the leading occurrence and leaves
`__w_pdfjs_require__webpack_require__`, in which the replaced suffix
`require__` and the remaining `webpack_require__` together spell a fresh
occurrence of `__webpack_require__`, so a second pass changes the text
again. -/
theorem C2_counterexample :
    ¬ (replaceWebpackRequire (replaceWebpackRequire
          "__webpack_require__webpack_require__".toList) =
        replaceWebpackRequire "__webpack_require__webpack_require__".toList) := by
  decide

/-- C2 (amended): on any bundler output whose pattern occurrences are
isolated (no occurrence of `__webpack_require__`, `__non_webpack_import__`
or the `root["<amd>"] = factory()` AMD footer starts inside another
occurrence, in the text or in any of its one- and two-pass images, each
pass rewrites the tokenisation pointwise, and no pass leaves an occurrence
of its own pattern behind), the three substitution passes
`replaceWebpackRequire`, `replaceNonWebpackImport` and
`replaceJSRootName amd js` are each idempotent, and the six orders of
applying the three passes all yield byte-identical text. -/
theorem C2_substitutions (amd js s : List Char) (h : isolated amd js s) :
    (replaceWebpackRequire (replaceWebpackRequire s) =
        replaceWebpackRequire s ∧
      replaceNonWebpackImport (replaceNonWebpackImport s) =
        replaceNonWebpackImport s ∧
      replaceJSRootName amd js (replaceJSRootName amd js s) =
        replaceJSRootName amd js s) ∧
    (replaceJSRootName amd js (replaceWebpackRequire
          (replaceNonWebpackImport s)) =
        replaceJSRootName amd js (replaceNonWebpackImport
          (replaceWebpackRequire s)) ∧
      replaceNonWebpackImport (replaceJSRootName amd js
          (replaceWebpackRequire s)) =
        replaceJSRootName amd js (replaceNonWebpackImport
          (replaceWebpackRequire s)) ∧
      replaceNonWebpackImport (replaceWebpackRequire
          (replaceJSRootName amd js s)) =
        replaceJSRootName amd js (replaceNonWebpackImport
          (replaceWebpackRequire s)) ∧
      replaceWebpackRequire (replaceJSRootName amd js
          (replaceNonWebpackImport s)) =
        replaceJSRootName amd js (replaceNonWebpackImport
          (replaceWebpackRequire s)) ∧
      replaceWebpackRequire (replaceNonWebpackImport
          (replaceJSRootName amd js s)) =
        replaceJSRootName amd js (replaceNonWebpackImport
          (replaceWebpackRequire s))) := by
  obtain ⟨hov0, hov1, hov2, hp1, hp2, hcont⟩ := h
  have key : ∀ a b k : PatId, a ≠ b →
      applyP amd js k (applyP amd js b (applyP amd js a s)) =
        render amd (expandP amd js k (expandP amd js b
          (expandP amd js a (parse amd s)))) := by
    intro a b k hab
    have h3 := applyP_eq_render_expandP amd js k
      (applyP amd js b (applyP amd js a s)) (hov2 a b hab)
    rw [h3, hp2 a b hab]
  refine ⟨⟨?_, ?_, ?_⟩, ?_, ?_, ?_, ?_, ?_⟩
  · exact notContains_replaceAll wpRep (replaceWebpackRequire s)
      (hcont PatId.wp)
  · exact notContains_replaceAll nwRep (replaceNonWebpackImport s)
      (hcont PatId.nw)
  · exact notContains_replaceAll (rootRep amd js)
      (replaceJSRootName amd js s) (hcont PatId.rt)
  · show applyP amd js PatId.rt (applyP amd js PatId.wp
        (applyP amd js PatId.nw s)) =
      applyP amd js PatId.rt (applyP amd js PatId.nw
        (applyP amd js PatId.wp s))
    rw [key PatId.nw PatId.wp PatId.rt (by decide),
      key PatId.wp PatId.nw PatId.rt (by decide),
      expandP_comm amd js PatId.wp PatId.nw]
  · show applyP amd js PatId.nw (applyP amd js PatId.rt
        (applyP amd js PatId.wp s)) =
      applyP amd js PatId.rt (applyP amd js PatId.nw
        (applyP amd js PatId.wp s))
    rw [key PatId.wp PatId.rt PatId.nw (by decide),
      key PatId.wp PatId.nw PatId.rt (by decide),
      expandP_comm amd js PatId.nw PatId.rt]
  · show applyP amd js PatId.nw (applyP amd js PatId.wp
        (applyP amd js PatId.rt s)) =
      applyP amd js PatId.rt (applyP amd js PatId.nw
        (applyP amd js PatId.wp s))
    rw [key PatId.rt PatId.wp PatId.nw (by decide),
      key PatId.wp PatId.nw PatId.rt (by decide),
      expandP_comm amd js PatId.wp PatId.rt,
      expandP_comm amd js PatId.nw PatId.rt]
  · show applyP amd js PatId.wp (applyP amd js PatId.rt
        (applyP amd js PatId.nw s)) =
      applyP amd js PatId.rt (applyP amd js PatId.nw
        (applyP amd js PatId.wp s))
    rw [key PatId.nw PatId.rt PatId.wp (by decide),
      key PatId.wp PatId.nw PatId.rt (by decide),
      expandP_comm amd js PatId.wp PatId.rt,
      expandP_comm amd js PatId.wp PatId.nw]
  · show applyP amd js PatId.wp (applyP amd js PatId.nw
        (applyP amd js PatId.rt s)) =
      applyP amd js PatId.rt (applyP amd js PatId.nw
        (applyP amd js PatId.wp s))
    rw [key PatId.rt PatId.nw PatId.wp (by decide),
      key PatId.wp PatId.nw PatId.rt (by decide),
      expandP_comm amd js PatId.nw PatId.rt,
      expandP_comm amd js PatId.wp PatId.rt,
      expandP_comm amd js PatId.wp PatId.nw]

set_option maxRecDepth 4096 in
/-- The sample bundler output is isolated for the main bundle's AMD and
legacy names. -/
theorem iso_bundleSample : isolated amdMain jsMain bundleSample := by
  unfold isolated
  decide

/-- C2 witness: the sample bundler output satisfies the isolation
hypothesis, and on it the three substitution passes are idempotent and
all six application orders agree. -/
theorem C2_substitutions_witness :
    isolated amdMain jsMain bundleSample ∧
    ((replaceWebpackRequire (replaceWebpackRequire bundleSample) =
        replaceWebpackRequire bundleSample ∧
      replaceNonWebpackImport (replaceNonWebpackImport bundleSample) =
        replaceNonWebpackImport bundleSample ∧
      replaceJSRootName amdMain jsMain (replaceJSRootName amdMain jsMain bundleSample) =
        replaceJSRootName amdMain jsMain bundleSample) ∧
    (replaceJSRootName amdMain jsMain (replaceWebpackRequire
          (replaceNonWebpackImport bundleSample)) =
        replaceJSRootName amdMain jsMain (replaceNonWebpackImport
          (replaceWebpackRequire bundleSample)) ∧
      replaceNonWebpackImport (replaceJSRootName amdMain jsMain
          (replaceWebpackRequire bundleSample)) =
        replaceJSRootName amdMain jsMain (replaceNonWebpackImport
          (replaceWebpackRequire bundleSample)) ∧
      replaceNonWebpackImport (replaceWebpackRequire
          (replaceJSRootName amdMain jsMain bundleSample)) =
        replaceJSRootName amdMain jsMain (replaceNonWebpackImport
          (replaceWebpackRequire bundleSample)) ∧
      replaceWebpackRequire (replaceJSRootName amdMain jsMain
          (replaceNonWebpackImport bundleSample)) =
        replaceJSRootName amdMain jsMain (replaceNonWebpackImport
          (replaceWebpackRequire bundleSample)) ∧
      replaceWebpackRequire (replaceNonWebpackImport
          (replaceJSRootName amdMain jsMain bundleSample)) =
        replaceJSRootName amdMain jsMain (replaceNonWebpackImport
          (replaceWebpackRequire bundleSample)))) :=
  ⟨iso_bundleSample,
    C2_substitutions amdMain jsMain bundleSample iso_bundleSample⟩
